import Mathlib

/-
Verification of the NexTara DCS audit landing-page builder
(src/tools/dcs_audit_builder.py) against its specification.

The Python program is embedded shallowly: strings stay strings, byte
sequences are lists of naturals, the filesystem is a log of write
operations, the wall clock and the hostname are explicit parameters, and
possible write failures are injected through an oracle.  Exceptions are
modelled with Except.
-/

set_option maxRecDepth 40000

/-! ### Bytes and encodings -/

/-- UTF-8 encoding of a single code point, as in RFC 3629 (CPython's
codec does the same byte-level encoding for text without surrogates). -/
def utf8EncodeCharBytes (c : Char) : List Nat :=
  let n := c.toNat
  if n < 128 then [n]
  else if n < 2048 then [192 ||| (n >>> 6), 128 ||| (n &&& 63)]
  else if n < 65536 then [224 ||| (n >>> 12), 128 ||| ((n >>> 6) &&& 63), 128 ||| (n &&& 63)]
  else [240 ||| (n >>> 18), 128 ||| ((n >>> 12) &&& 63), 128 ||| ((n >>> 6) &&& 63), 128 ||| (n &&& 63)]

/-- UTF-8 encoding of a string: the bytes `s.encode("utf-8")` returns. -/
def utf8Bytes (s : String) : List Nat := s.data.flatMap utf8EncodeCharBytes

/-- Codec names this development models.  CPython knows more codecs (and
aliases); a name outside this set is modelled as raising LookupError at
the first `encode` call, which `build_package` surfaces as a
non-validation error (exit code 2). -/
def supportedEncoding (e : String) : Bool := e == "utf-8" || e == "utf-8-sig"

/-- Models `content.encode(encoding)` for the supported codec names:
"utf-8-sig" prefixes the UTF-8 byte order mark EF BB BF, "utf-8" is the
plain UTF-8 encoding.  Callers guard with `supportedEncoding`. -/
def encodeBytes (encoding : String) (s : String) : List Nat :=
  if encoding == "utf-8-sig" then 239 :: 187 :: 191 :: utf8Bytes s else utf8Bytes s

/-! ### Substring search and lower-casing (Python `in` and `str.lower`) -/

/-- Whether the first list is a prefix of the second. -/
def leadsWith : List Char → List Char → Bool
  | [], _ => true
  | _ :: _, [] => false
  | n :: ns, h :: hs => n == h && leadsWith ns hs

/-- Whether `ns` occurs as a contiguous sublist of the second argument. -/
def containsSub (ns : List Char) : List Char → Bool
  | [] => leadsWith ns []
  | h :: t => leadsWith ns (h :: t) || containsSub ns t

/-- Models the Python expression `needle in hay` on strings. -/
def strContains (hay needle : String) : Bool := containsSub needle.data hay.data

/-- ASCII lower-casing of one character.  Python's `str.lower` is
Unicode-aware, but every character of the artifacts this program
generates is either ASCII or a dash/box character that `lower` leaves
unchanged, so ASCII lowering agrees with CPython on all inputs used. -/
def lowerChar (c : Char) : Char :=
  if 65 ≤ c.toNat && c.toNat ≤ 90 then Char.ofNat (c.toNat + 32) else c

/-- Models `content.lower()` for the content this program handles. -/
def lowerStr (s : String) : String := String.mk (s.data.map lowerChar)

/-! ### SHA-256 (hashlib.sha256 over a byte list, hex digest) -/

/-- Addition modulo 2^32. -/
def add32 (a b : Nat) : Nat := (a + b) % 4294967296

/-- Right rotation of a 32-bit word. -/
def rotr32 (x n : Nat) : Nat := ((x >>> n) ||| (x <<< (32 - n))) % 4294967296

/-- The SHA-256 choice function. -/
def shaCh (x y z : Nat) : Nat := (x &&& y) ^^^ ((x ^^^ 4294967295) &&& z)

/-- The SHA-256 majority function. -/
def shaMaj (x y z : Nat) : Nat := (x &&& y) ^^^ (x &&& z) ^^^ (y &&& z)

/-- The SHA-256 big sigma-0 function. -/
def bSig0 (x : Nat) : Nat := rotr32 x 2 ^^^ rotr32 x 13 ^^^ rotr32 x 22

/-- The SHA-256 big sigma-1 function. -/
def bSig1 (x : Nat) : Nat := rotr32 x 6 ^^^ rotr32 x 11 ^^^ rotr32 x 25

/-- The SHA-256 small sigma-0 function. -/
def sSig0 (x : Nat) : Nat := rotr32 x 7 ^^^ rotr32 x 18 ^^^ (x >>> 3)

/-- The SHA-256 small sigma-1 function. -/
def sSig1 (x : Nat) : Nat := rotr32 x 17 ^^^ rotr32 x 19 ^^^ (x >>> 10)

/-- The 64 SHA-256 round constants. -/
def shaK : List Nat := [1116352408, 1899447441, 3049323471, 3921009573, 961987163, 1508970993, 2453635748, 2870763221, 3624381080, 310598401, 607225278, 1426881987, 1925078388, 2162078206, 2614888103, 3248222580, 3835390401, 4022224774, 264347078, 604807628, 770255983, 1249150122, 1555081692, 1996064986, 2554220882, 2821834349, 2952996808, 3210313671, 3336571891, 3584528711, 113926993, 338241895, 666307205, 773529912, 1294757372, 1396182291, 1695183700, 1986661051, 2177026350, 2456956037, 2730485921, 2820302411, 3259730800, 3345764771, 3516065817, 3600352804, 4094571909, 275423344, 430227734, 506948616, 659060556, 883997877, 958139571, 1322822218, 1537002063, 1747873779, 1955562222, 2024104815, 2227730452, 2361852424, 2428436474, 2756734187, 3204031479, 3329325298]

/-- An eight-word SHA-256 state. -/
structure Hash8 where
  a : Nat
  b : Nat
  c : Nat
  d : Nat
  e : Nat
  f : Nat
  g : Nat
  h : Nat
deriving DecidableEq

/-- A sixteen-word sliding window for the message schedule. -/
structure W16 where
  w0 : Nat
  w1 : Nat
  w2 : Nat
  w3 : Nat
  w4 : Nat
  w5 : Nat
  w6 : Nat
  w7 : Nat
  w8 : Nat
  w9 : Nat
  w10 : Nat
  w11 : Nat
  w12 : Nat
  w13 : Nat
  w14 : Nat
  w15 : Nat

/-- Big-endian 32-bit words from a byte list. -/
def bytesToWords : List Nat → List Nat
  | b0 :: b1 :: b2 :: b3 :: rest => (((b0 * 256 + b1) * 256 + b2) * 256 + b3) :: bytesToWords rest
  | _ => []

/-- Extends the message schedule by the given number of words. -/
def schedExt : Nat → W16 → List Nat → List Nat
  | 0, _, acc => acc.reverse
  | k + 1, w, acc =>
    let wn := add32 (add32 (sSig1 w.w14) w.w9) (add32 (sSig0 w.w1) w.w0)
    schedExt k ⟨w.w1, w.w2, w.w3, w.w4, w.w5, w.w6, w.w7, w.w8, w.w9, w.w10, w.w11, w.w12, w.w13, w.w14, w.w15, wn⟩ (wn :: acc)

/-- The 64-word message schedule of one block. -/
def sched (ws : List Nat) : List Nat :=
  match ws with
  | [w0, w1, w2, w3, w4, w5, w6, w7, w8, w9, w10, w11, w12, w13, w14, w15] =>
    ws ++ schedExt 48 ⟨w0, w1, w2, w3, w4, w5, w6, w7, w8, w9, w10, w11, w12, w13, w14, w15⟩ []
  | _ => []

/-- The 64 SHA-256 rounds over the schedule and round constants. -/
def roundsGo : List Nat → List Nat → Hash8 → Hash8
  | w :: ws, k :: ks, st =>
    let t1 := add32 st.h (add32 (bSig1 st.e) (add32 (shaCh st.e st.f st.g) (add32 k w)))
    let t2 := add32 (bSig0 st.a) (shaMaj st.a st.b st.c)
    roundsGo ws ks ⟨add32 t1 t2, st.a, st.b, st.c, add32 st.d t1, st.e, st.f, st.g⟩
  | _, _, st => st

/-- One SHA-256 block compression. -/
def compressBlock (st : Hash8) (blk : List Nat) : Hash8 :=
  let r := roundsGo (sched (bytesToWords blk)) shaK st
  ⟨add32 st.a r.a, add32 st.b r.b, add32 st.c r.c, add32 st.d r.d,
   add32 st.e r.e, add32 st.f r.f, add32 st.g r.g, add32 st.h r.h⟩

/-- The SHA-256 initial state. -/
def shaH0 : Hash8 := ⟨1779033703, 3144134277, 1013904242, 2773480762, 1359893119, 2600822924, 528734635, 1541459225⟩

/-- Splits a byte list into 64-byte blocks. -/
def toBlocks : List Nat → List (List Nat)
  | [] => []
  | b :: rest => (b :: rest.take 63) :: toBlocks (rest.drop 63)
  termination_by l => l.length
  decreasing_by simp [List.length_drop]; omega

/-- Folds the compression function over the blocks. -/
def shaRun : Hash8 → List (List Nat) → Hash8
  | st, [] => st
  | st, b :: bs => shaRun (compressBlock st b) bs

/-- Big-endian 64-bit length field of the SHA-256 padding. -/
def lenBE (n : Nat) : List Nat :=
  [(n >>> 56) % 256, (n >>> 48) % 256, (n >>> 40) % 256, (n >>> 32) % 256,
   (n >>> 24) % 256, (n >>> 16) % 256, (n >>> 8) % 256, n % 256]

/-- SHA-256 message padding: a 0x80 byte, zeros to 56 mod 64, and the
bit length, so the total is a multiple of 64. -/
def pad (msg : List Nat) : List Nat :=
  msg ++ (128 :: (List.replicate ((119 - msg.length % 64) % 64) 0 ++ lenBE (8 * msg.length)))

/-- A lowercase hexadecimal digit. -/
def hexDigit (n : Nat) : Char := if n < 10 then Char.ofNat (48 + n) else Char.ofNat (87 + n)

/-- Eight lowercase hex digits of a 32-bit word. -/
def word32Hex (w : Nat) : String :=
  String.mk [hexDigit ((w >>> 28) % 16), hexDigit ((w >>> 24) % 16), hexDigit ((w >>> 20) % 16),
    hexDigit ((w >>> 16) % 16), hexDigit ((w >>> 12) % 16), hexDigit ((w >>> 8) % 16),
    hexDigit ((w >>> 4) % 16), hexDigit (w % 16)]

/-- The hex digest of a final SHA-256 state. -/
def hashHex (st : Hash8) : String :=
  word32Hex st.a ++ word32Hex st.b ++ word32Hex st.c ++ word32Hex st.d ++
  word32Hex st.e ++ word32Hex st.f ++ word32Hex st.g ++ word32Hex st.h

/-- SHA-256 hex digest of a byte list, as `hashlib.sha256(b).hexdigest()`
returns it. -/
def sha256hex (msg : List Nat) : String := hashHex (shaRun shaH0 (toBlocks (pad msg)))

/-- Source lines 817-819: `compute_checksum(content, encoding="utf-8")`.
Every call site of this program uses the default encoding, so the model
fixes it: the digest is always taken over the UTF-8 bytes of `content`. -/
def compute_checksum (content : String) : String := sha256hex (utf8Bytes content)

/-! ### A JSON value model (for the schema document and the manifest) -/

/-- JSON values as this program produces them: strings, booleans,
arrays and objects (objects keep insertion order, like Python dicts). -/
inductive JVal where
  | str (s : String)
  | bool (b : Bool)
  | arr (xs : List JVal)
  | obj (kvs : List (String × JVal))

/-- First-match association lookup, the behaviour of `dict.get` on the
dictionaries this program builds (Python dict keys are unique). -/
def lookupKV : List (String × JVal) → String → Option JVal
  | [], _ => none
  | (k, v) :: rest, key => if k == key then some v else lookupKV rest key

/-- Models `item.get(key)` for dictionary items.  On a non-dictionary
the Python code would raise AttributeError; the model returns `none`,
a case the generated schema never exercises. -/
def jget : JVal → String → Option JVal
  | .obj kvs, key => lookupKV kvs key
  | _, _ => none

/-- Models `schema.get("@graph", [])` followed by iteration: the graph
entries when the field holds a list, and the empty default otherwise. -/
def graphItems (schema : List (String × JVal)) : List JVal :=
  match lookupKV schema "@graph" with
  | some (.arr items) => items
  | _ => []

/-- Four lowercase hex digits. -/
def hex4 (n : Nat) : String :=
  String.mk [hexDigit ((n >>> 12) % 16), hexDigit ((n >>> 8) % 16), hexDigit ((n >>> 4) % 16), hexDigit (n % 16)]

/-- JSON string escaping of one character, as `json.dumps` does it:
quote, backslash and controls are escaped, and with `ensure_ascii`
every non-ASCII character becomes a \u escape (surrogate pairs above
the basic plane). -/
def jsonEscapeChar (ensureAscii : Bool) (c : Char) : String :=
  if c = '"' then "\\\""
  else if c = '\\' then "\\\\"
  else if c = '\n' then "\\n"
  else if c = '\t' then "\\t"
  else if c = '\r' then "\\r"
  else if c.toNat = 8 then "\\b"
  else if c.toNat = 12 then "\\f"
  else if c.toNat < 32 then "\\u" ++ hex4 c.toNat
  else if ensureAscii && 127 ≤ c.toNat then
    if c.toNat < 65536 then "\\u" ++ hex4 c.toNat
    else "\\u" ++ hex4 (55296 + (c.toNat - 65536) / 1024) ++ "\\u" ++ hex4 (56320 + (c.toNat - 65536) % 1024)
  else String.singleton c

/-- A JSON string literal with escaping. -/
def jsonQuote (ensureAscii : Bool) (s : String) : String :=
  "\"" ++ String.join (s.data.map (jsonEscapeChar ensureAscii)) ++ "\""

/-- A run of spaces. -/
def spacesN (n : Nat) : String := String.mk (List.replicate n ' ')

/-- Models `json.dumps(v, indent=2)` (and with `ensure_ascii=False` when
the flag is false): each nesting level indents by two spaces, items are
separated by a comma and a newline, keys by a colon and a space.  The
fuel argument bounds the recursion depth; every call in this file uses
fuel far beyond the fixed nesting depth of the serialized values. -/
def jsonDumpsVal : Nat → Bool → Nat → JVal → String
  | 0, _, _, _ => ""
  | fuel + 1, ea, ind, v =>
    match v with
    | .str s => jsonQuote ea s
    | .bool b => if b then "true" else "false"
    | .arr [] => "[]"
    | .arr xs =>
      "[\n" ++ String.intercalate ",\n" (xs.map (fun x => spacesN (ind + 2) ++ jsonDumpsVal fuel ea (ind + 2) x)) ++
      "\n" ++ spacesN ind ++ "]"
    | .obj [] => "\x7b\x7d"
    | .obj kvs =>
      "\x7b\n" ++ String.intercalate ",\n" (kvs.map (fun kv => spacesN (ind + 2) ++ jsonQuote ea kv.1 ++ ": " ++ jsonDumpsVal fuel ea (ind + 2) kv.2)) ++
      "\n" ++ spacesN ind ++ "\x7d"

/-! ### The template literals of the source, transcribed verbatim.
Each big literal is split into chunks (concatenated back in order)
so that facts about it can be established chunk by chunk; the
concatenation of the chunks is exactly the Python literal. -/

def astroChunk0 : String := "---\nimport BaseLayout from \x27../layouts/BaseLayout.astro\x27;\n\nconst pageTitle = \x27Digital Credibility Score Audit | NexTara AI Solutions\x27;\nconst pageDescription =\n  \x27Request a Digital Credibility Score Audit to understand whether your current website can reali"
def astroChunk1 : String := "stically reach a DCS 900+ standard and where your biggest gaps are.\x27;\n---\n\n<BaseLayout title=\x7bpageTitle\x7d description=\x7bpageDescription\x7d>\n  <main>\n    \x7b/* HERO SECTION */\x7d\n    <section class=\"hero-section hero-section--audit\">\n      <div class=\"container\">\n "
def astroChunk2 : String := "       <div class=\"hero-grid\">\n          <div class=\"hero-content\">\n            <h1 class=\"hero-title fade-up\">Digital Credibility Score Audit</h1>\n            <p class=\"hero-lead fade-up-delay-1\">\n              Find out if your current website can realist"
def astroChunk3 : String := "ically earn a Digital Credibility Score of\n              900+—or if you&apos;re leaving visibility, trust, and revenue on the table.\n            </p>\n            <ul class=\"hero-bullets fade-up-delay-2\">\n              <li>See where your site passes or fail"
def astroChunk4 : String := "s modern AI + search tests.</li>\n              <li>Understand what is blocking you from a DCS 900+ build.</li>\n              <li>Get a prioritized, non-fluffy remediation roadmap.</li>\n            </ul>\n            <div class=\"hero-ctas fade-up-delay-3\">\n "
def astroChunk5 : String := "             <a href=\"#audit-form\" class=\"btn btn-primary\">Start My DCS Audit</a>\n              <a href=\"/contact\" class=\"btn btn-secondary\">Talk with NexTara First</a>\n            </div>\n          </div>\n        </div>\n      </div>\n    </section>\n\n    \x7b/*"
def astroChunk6 : String := " WHAT YOU GET */\x7d\n    <section class=\"section\">\n      <div class=\"container\">\n        <h2 class=\"section-title\">What You Get from a Digital Credibility Score Audit</h2>\n        <p class=\"section-intro\">\n          This is a structured, engineering-grade aud"
def astroChunk7 : String := "it—built to support executives, marketers, and\n          technical owners who need clear answers, not another vague checklist.\n        </p>\n        <div class=\"grid grid-2\">\n          <ul class=\"feature-list\">\n            <li><strong>DCS Baseline Score.</s"
def astroChunk8 : String := "trong> 0–1000 snapshot of your current credibility posture.</li>\n            <li><strong>Category Breakdown.</strong> Scores across visibility, technical integrity, schema, trust, conversion, and analytics.</li>\n            <li><strong>Issue Inventory.</st"
def astroChunk9 : String := "rong> High, medium, and low–impact issues mapped to business risk.</li>\n          </ul>\n          <ul class=\"feature-list\">\n            <li><strong>Remediation Roadmap.</strong> Prioritized actions for your current team, agency, or NexTara to execute.</li>"
def astroChunk10 : String := "\n            <li><strong>Readout Option.</strong> Optional review session to walk through the findings and answer questions.</li>\n          </ul>\n        </div>\n      </div>\n    </section>\n\n    \x7b/* EXECUTIVE SNAPSHOT */\x7d\n    <section class=\"section section"
def astroChunk11 : String := "-alt\">\n      <div class=\"container\">\n        <h2 class=\"section-title\">Executive Audit Snapshot</h2>\n        <p class=\"section-intro\">\n          The Digital Credibility Score Audit is delivered as a structured decision asset, not a loose\n          collecti"
def astroChunk12 : String := "on of screenshots and suggestions.\n        </p>\n        <div class=\"audit-summary-grid\">\n          <div class=\"audit-summary-card\">\n            <h3 class=\"card-label\">Primary Output</h3>\n            <p class=\"card-value\">Digital Credibility Score (0–1000) "
def astroChunk13 : String := "+ Pillar Scores</p>\n            <p class=\"card-note\">Visibility, Technical Integrity, Trust, Conversion, Analytics &amp; Governance.</p>\n          </div>\n          <div class=\"audit-summary-card\">\n            <h3 class=\"card-label\">Decision Question</h3>\n "
def astroChunk14 : String := "           <p class=\"card-value\">\"Can this website support a DCS 900+ standard, or is a rebuild more efficient?\"</p>\n            <p class=\"card-note\">Built to support executive &quot;fix vs. rebuild&quot; decisions.</p>\n          </div>\n          <div clas"
def astroChunk15 : String := "s=\"audit-summary-card\">\n            <h3 class=\"card-label\">Deliverable Format</h3>\n            <p class=\"card-value\">Audit PDF + Issue Inventory + Roadmap</p>\n            <p class=\"card-note\">Vendor-neutral, suitable for internal teams or external agencies"
def astroChunk16 : String := ".</p>\n          </div>\n          <div class=\"audit-summary-card\">\n            <h3 class=\"card-label\">Intended Owner</h3>\n            <p class=\"card-value\">CMO / Founder / Marketing or Operations Lead</p>\n            <p class=\"card-note\">Structured to brief"
def astroChunk17 : String := " stakeholders in one meeting.</p>\n          </div>\n        </div>\n      </div>\n    </section>\n\n    \x7b/* WHY IT MATTERS */\x7d\n    <section class=\"section section-alt\">\n      <div class=\"container\">\n        <h2 class=\"section-title\">Why Your Digital Credibility"
def astroChunk18 : String := " Score Matters Now</h2>\n        <p class=\"section-intro\">\n          Search engines and AI systems are reading your schema, your technical structure, your trust\n          signals, and your analytics stack to decide whether your website deserves visibility.\n"
def astroChunk19 : String := "        </p>\n        <div class=\"grid grid-3\">\n          <div class=\"card\">\n            <h3 class=\"card-title\">Visibility</h3>\n            <p>If your score is low, high-intent buyers never see your pages—no matter how strong your copy is.</p>\n          </d"
def astroChunk20 : String := "iv>\n          <div class=\"card\">\n            <h3 class=\"card-title\">Efficiency</h3>\n            <p>Ad spend has to fight against a weak technical foundation, driving higher CPCs and lower quality leads.</p>\n          </div>\n          <div class=\"card\">\n   "
def astroChunk21 : String := "         <h3 class=\"card-title\">Confidence</h3>\n            <p>A quantified score gives leadership a shared, objective view of the site&apos;s true readiness.</p>\n          </div>\n        </div>\n      </div>\n    </section>\n\n    \x7b/* WHO IT\x27S FOR */\x7d\n    <se"
def astroChunk22 : String := "ction class=\"section\">\n      <div class=\"container grid grid-2\">\n        <div>\n          <h2 class=\"section-title\">Who This Audit Is For</h2>\n          <ul class=\"feature-list\">\n            <li>Organizations that treat their website as a growth asset, not "
def astroChunk23 : String := "a brochure.</li>\n            <li>Teams considering a redesign and wanting proof before they commit.</li>\n            <li>CMOs, founders, and marketing leaders who need clarity on \"fix vs. rebuild\" decisions.</li>\n            <li>Businesses that want audit-"
def astroChunk24 : String := "grade documentation for internal stakeholders.</li>\n          </ul>\n        </div>\n        <div class=\"card card-outline\">\n          <h3 class=\"card-title\">When This Is Not a Fit</h3>\n          <ul class=\"feature-list\">\n            <li>You want a quick che"
def astroChunk25 : String := "cklist without implementation follow-through.</li>\n            <li>No one owns the website or is accountable for acting on the findings.</li>\n            <li>You are comfortable operating without measurable standards.</li>\n          </ul>\n        </div>\n  "
def astroChunk26 : String := "    </div>\n    </section>\n\n    \x7b/* HOW IT WORKS */\x7d\n    <section class=\"section section-alt\">\n      <div class=\"container\">\n        <h2 class=\"section-title\">How the Digital Credibility Score Audit Works</h2>\n        <div class=\"steps-grid\">\n          <div"
def astroChunk27 : String := " class=\"step\">\n            <div class=\"step-number\">1</div>\n            <h3 class=\"step-title\">Intake &amp; Context</h3>\n            <p>You complete a short intake with your domain, current stack, and business priorities so the audit is aligned to reality."
def astroChunk28 : String := "</p>\n          </div>\n          <div class=\"step\">\n            <div class=\"step-number\">2</div>\n            <h3 class=\"step-title\">Signal Collection &amp; Scoring</h3>\n            <p>We run your site through the DCS framework, covering visibility, schema, "
def astroChunk29 : String := "performance, trust, conversion, and analytics.</p>\n          </div>\n          <div class=\"step\">\n            <div class=\"step-number\">3</div>\n            <h3 class=\"step-title\">Issue Mapping &amp; Prioritization</h3>\n            <p>We identify the gaps pre"
def astroChunk30 : String := "venting a DCS 900+ build and prioritize them by impact and effort.</p>\n          </div>\n          <div class=\"step\">\n            <div class=\"step-number\">4</div>\n            <h3 class=\"step-title\">Delivery &amp; Readout</h3>\n            <p>You receive the "
def astroChunk31 : String := "full audit PDF and score breakdown, with an optional readout session to walk through findings and next steps.</p>\n          </div>\n        </div>\n      </div>\n    </section>\n\n    \x7b/* FIVE PILLARS */\x7d\n    <section class=\"section\">\n      <div class=\"containe"
def astroChunk32 : String := "r\">\n        <h2 class=\"section-title\">The Five Pillars of Your Digital Credibility Score</h2>\n        <p class=\"section-intro\">\n          The DCS framework evaluates your website across five tightly-governed pillars. Each pillar\n          contributes to yo"
def astroChunk33 : String := "ur overall 0–1000 score and your ability to operate as a DCS 900+ website.\n        </p>\n        <div class=\"grid grid-3\">\n          <div class=\"card\">\n            <h3 class=\"card-title\">1. Visibility Engine</h3>\n            <p>How clearly search engines an"
def astroChunk34 : String := "d AI systems can understand, crawl, and surface your pages. Schema structure, internal linking, and content architecture are evaluated here.</p>\n          </div>\n          <div class=\"card\">\n            <h3 class=\"card-title\">2. Technical Integrity</h3>\n  "
def astroChunk35 : String := "          <p>Core Web Vitals, mobile responsiveness, rendering behavior, and code hygiene. This pillar determines whether your site meets modern performance expectations.</p>\n          </div>\n          <div class=\"card\">\n            <h3 class=\"card-title\">"
def astroChunk36 : String := "3. Trust Layer</h3>\n            <p>Brand consistency, proof assets, reviews, case studies, and compliance language. We measure whether your digital presence actually earns trust from both humans and algorithms.</p>\n          </div>\n          <div class=\"ca"
def astroChunk37 : String := "rd\">\n            <h3 class=\"card-title\">4. Conversion Spine</h3>\n            <p>CTA hierarchy, page flow, form friction, and lead capture readiness. This is where we score how effectively your website converts qualified attention into qualified pipeline.</"
def astroChunk38 : String := "p>\n          </div>\n          <div class=\"card\">\n            <h3 class=\"card-title\">5. Data &amp; Governance Layer</h3>\n            <p>GA4, GTM, consent posture, and data hygiene. We evaluate whether your analytics and governance stack are capable of suppo"
def astroChunk39 : String := "rting accurate measurement and optimization.</p>\n          </div>\n        </div>\n      </div>\n    </section>\n\n    \x7b/* SAMPLE FINDINGS */\x7d\n    <section class=\"section section-alt\">\n      <div class=\"container\">\n        <h2 class=\"section-title\">Sample Findi"
def astroChunk40 : String := "ngs from a DCS Audit</h2>\n        <p class=\"section-intro\">\n          The goal is not to overwhelm you with jargon—it&apos;s to give you a clear, prioritized\n          picture of what must change for your site to behave like a DCS 900+ asset.\n        </p>\n"
def astroChunk41 : String := "        <div class=\"grid grid-3\">\n          <div class=\"card\">\n            <h3 class=\"card-title\">Surface-Level Strong, Structurally Weak</h3>\n            <p>\"Your site is visually strong but missing the schema and internal linking required for AI and sear"
def astroChunk42 : String := "ch systems to understand your services.\"</p>\n          </div>\n          <div class=\"card\">\n            <h3 class=\"card-title\">Conversion Friction on Mobile</h3>\n            <p>\"Core Web Vitals are within acceptable ranges, but your lead capture flow introd"
def astroChunk43 : String := "uces unnecessary friction on mobile.\"</p>\n          </div>\n          <div class=\"card\">\n            <h3 class=\"card-title\">Analytics Blockers</h3>\n            <p>\"GTM is installed, but critical events are not being forwarded to GA4, preventing you from unl"
def astroChunk44 : String := "ocking full measurement and optimization.\"</p>\n          </div>\n        </div>\n      </div>\n    </section>\n\n    \x7b/* RISK GRID */\x7d\n    <section class=\"section section-alt\">\n      <div class=\"container\">\n        <h2 class=\"section-title\">How We Classify Find"
def astroChunk45 : String := "ings</h2>\n        <p class=\"section-intro\">\n          Every issue in your audit is tagged with business impact, DCS impact, and recommended\n          action. This keeps the roadmap focused and executable instead of overwhelming.\n        </p>\n        <div c"
def astroChunk46 : String := "lass=\"risk-grid\">\n          <div class=\"risk-card risk-card--critical\">\n            <h3 class=\"card-title\">Critical – Blocks DCS 900+</h3>\n            <p class=\"card-note\">Immediate attention required.</p>\n            <ul class=\"feature-list\">\n            "
def astroChunk47 : String := "  <li>Broken or missing analytics / key events.</li>\n              <li>Structural issues that prevent key pages from being surfaced.</li>\n              <li>Security, compliance, or governance gaps that impact data integrity and decision quality.</li>\n     "
def astroChunk48 : String := "       </ul>\n          </div>\n          <div class=\"risk-card risk-card--high\">\n            <h3 class=\"card-title\">High – Material Performance Drag</h3>\n            <p class=\"card-note\">Schedule for near-term remediation.</p>\n            <ul class=\"feature"
def astroChunk49 : String := "-list\">\n              <li>Weak internal linking or schema coverage on revenue-driving pages.</li>\n              <li>Conversion friction on primary lead capture paths.</li>\n              <li>Missing trust assets in high-intent decision flows.</li>\n         "
def astroChunk50 : String := "   </ul>\n          </div>\n          <div class=\"risk-card risk-card--medium\">\n            <h3 class=\"card-title\">Medium – Optimization Opportunity</h3>\n            <p class=\"card-note\">Plan into your next iteration cycle.</p>\n            <ul class=\"feature"
def astroChunk51 : String := "-list\">\n              <li>Non-blocking Core Web Vitals issues.</li>\n              <li>Messaging gaps between ad promises and landing page content.</li>\n              <li>Unclear secondary CTAs or off-ramp experiences.</li>\n            </ul>\n          </div"
def astroChunk52 : String := ">\n        </div>\n      </div>\n    </section>\n\n    \x7b/* TIMELINE */\x7d\n    <section class=\"section section-alt\">\n      <div class=\"container\">\n        <h2 class=\"section-title\">Timeline &amp; Next Steps</h2>\n        <p class=\"section-intro\">\n          The DCS "
def astroChunk53 : String := "Audit is designed to move quickly enough for decision-making, while still meeting\n          the documentation and governance standards your leadership expects.\n        </p>\n        <ul class=\"feature-list\">\n          <li><strong>Audit Duration.</strong> Co"
def astroChunk54 : String := "mpleted within a defined timeframe after you complete the intake.</li>\n          <li><strong>Format.</strong> Delivered as a structured PDF with a score breakdown and issue prioritization.</li>\n          <li><strong>Ownership.</strong> You can execute inte"
def astroChunk55 : String := "rnally, with your current agency, or with NexTara—our output is vendor-neutral.</li>\n        </ul>\n      </div>\n    </section>\n\n    \x7b/* ABOUT NEXTARA */\x7d\n    <section class=\"section\">\n      <div class=\"container\">\n        <h2 class=\"section-title\">Why NexT"
def astroChunk56 : String := "ara Leads with Governance</h2>\n        <p class=\"section-intro\">\n          NexTara AI Solutions operates from a governance-first mindset. We don&apos;t just look at\n          how pages look—we measure how they perform against AI visibility, technical integ"
def astroChunk57 : String := "rity,\n          analytics, and compliance.\n        </p>\n        <p>\n          The Digital Credibility Score Audit is built to support executive decision-making,\n          compliance documentation, and future-proofing against changes in how search and AI sy"
def astroChunk58 : String := "stems\n          evaluate your website.\n        </p>\n      </div>\n    </section>\n\n    \x7b/* FAQ */\x7d\n    <section class=\"section\">\n      <div class=\"container\">\n        <h2 class=\"section-title\">Digital Credibility Score Audit – FAQs</h2>\n        <div class=\"f"
def astroChunk59 : String := "aq-list\">\n          <article class=\"faq-item\">\n            <h3 class=\"faq-question\">Is this just an SEO audit with a different label?</h3>\n            <p class=\"faq-answer\">No. A DCS Audit includes SEO and schema, but it also evaluates conversion, trust, a"
def astroChunk60 : String := "nalytics, and governance. The output is designed to support executive decisions about whether to optimize, rebuild, or re-platform your site.</p>\n          </article>\n          <article class=\"faq-item\">\n            <h3 class=\"faq-question\">Can my current "
def astroChunk61 : String := "agency or developer use this audit?</h3>\n            <p class=\"faq-answer\">Yes. The audit is vendor-neutral. Many clients choose to execute the roadmap with their existing teams; others ask NexTara to own the rebuild. Either way, you keep the score, the fi"
def astroChunk62 : String := "ndings, and the documentation.</p>\n          </article>\n          <article class=\"faq-item\">\n            <h3 class=\"faq-question\">What if my score is already high?</h3>\n            <p class=\"faq-answer\">If your score is already in the DCS 880–920 range, th"
def astroChunk63 : String := "e audit focuses on unlocking specific opportunities: AI visibility, conversion lift, and governance hardening. The goal is to move you from &quot;strong&quot; to &quot;enterprise-ready&quot; with a clear, prioritized set of changes.</p>\n          </article"
def astroChunk64 : String := ">\n          <article class=\"faq-item\">\n            <h3 class=\"faq-question\">Will you try to sell me a full website rebuild?</h3>\n            <p class=\"faq-answer\">Only if the data justifies it. The DCS Audit is designed to answer a single question: &quot;C"
def astroChunk65 : String := "an this website realistically operate as a DCS 900+ asset?&quot; If the answer is yes, the roadmap will focus on optimization instead of rebuild.</p>\n          </article>\n        </div>\n      </div>\n    </section>\n\n    \x7b/* CTA + FORM */\x7d\n    <section class"
def astroChunk66 : String := "=\"section section-alt\" id=\"audit-form\">\n      <div class=\"container grid grid-2\">\n        <div>\n          <h2 class=\"section-title\">Request Your Digital Credibility Score Audit</h2>\n          <p class=\"section-intro\">\n            Complete the form and we&a"
def astroChunk67 : String := "pos;ll confirm your audit, align on scope, and begin the DCS evaluation.\n          </p>\n          <ul class=\"feature-list\">\n            <li>Objective, vendor-neutral assessment.</li>\n            <li>Actionable roadmap your team can execute.</li>\n          "
def astroChunk68 : String := "  <li>Designed for DCS 900+ websites only builds.</li>\n          </ul>\n        </div>\n        <div>\n          <form class=\"form audit-form\" data-netlify=\"true\" name=\"dcs-audit-request\">\n            <div class=\"form-field\">\n              <label for=\"name\">N"
def astroChunk69 : String := "ame</label>\n              <input id=\"name\" name=\"name\" type=\"text\" required autocomplete=\"name\" />\n            </div>\n            <div class=\"form-field\">\n              <label for=\"email\">Email</label>\n              <input id=\"email\" name=\"email\" type=\"ema"
def astroChunk70 : String := "il\" required autocomplete=\"email\" />\n            </div>\n            <div class=\"form-field\">\n              <label for=\"company\">Company / Organization</label>\n              <input id=\"company\" name=\"company\" type=\"text\" autocomplete=\"organization\" />\n     "
def astroChunk71 : String := "       </div>\n            <div class=\"form-field\">\n              <label for=\"website\">Website URL</label>\n              <input id=\"website\" name=\"website\" type=\"url\" required placeholder=\"https://\" />\n            </div>\n            <div class=\"form-field\">"
def astroChunk72 : String := "\n              <label for=\"role\">Role</label>\n              <select id=\"role\" name=\"role\">\n                <option value=\"\">Select your role</option>\n                <option value=\"founder\">Founder / Owner</option>\n                <option value=\"cmo\">CMO /"
def astroChunk73 : String := " Marketing Lead</option>\n                <option value=\"ops\">Operations / Practice Manager</option>\n                <option value=\"other\">Other</option>\n              </select>\n            </div>\n            <div class=\"form-field\">\n              <"
def astroChunk74 : String := "label for=\"concern\">Biggest current website concern</label>\n              <textarea id=\"concern\" name=\"concern\" rows=\"4\"></textarea>\n            </div>\n            <button type=\"submit\" class=\"btn btn-primary btn-block\">Request My DCS Audit</button>\n      "
def astroChunk75 : String := "    </form>\n        </div>\n      </div>\n    </section>\n  </main>\n</BaseLayout>\n"

/-- Cumulative suffixes of the chunk list: astroSfx i is the
concatenation of chunks i..last, so the whole literal unfolds to a
right-nested concatenation. -/
def astroSfx75 : String := astroChunk75
def astroSfx74 : String := astroChunk74 ++ astroSfx75
def astroSfx73 : String := astroChunk73 ++ astroSfx74
def astroSfx72 : String := astroChunk72 ++ astroSfx73
def astroSfx71 : String := astroChunk71 ++ astroSfx72
def astroSfx70 : String := astroChunk70 ++ astroSfx71
def astroSfx69 : String := astroChunk69 ++ astroSfx70
def astroSfx68 : String := astroChunk68 ++ astroSfx69
def astroSfx67 : String := astroChunk67 ++ astroSfx68
def astroSfx66 : String := astroChunk66 ++ astroSfx67
def astroSfx65 : String := astroChunk65 ++ astroSfx66
def astroSfx64 : String := astroChunk64 ++ astroSfx65
def astroSfx63 : String := astroChunk63 ++ astroSfx64
def astroSfx62 : String := astroChunk62 ++ astroSfx63
def astroSfx61 : String := astroChunk61 ++ astroSfx62
def astroSfx60 : String := astroChunk60 ++ astroSfx61
def astroSfx59 : String := astroChunk59 ++ astroSfx60
def astroSfx58 : String := astroChunk58 ++ astroSfx59
def astroSfx57 : String := astroChunk57 ++ astroSfx58
def astroSfx56 : String := astroChunk56 ++ astroSfx57
def astroSfx55 : String := astroChunk55 ++ astroSfx56
def astroSfx54 : String := astroChunk54 ++ astroSfx55
def astroSfx53 : String := astroChunk53 ++ astroSfx54
def astroSfx52 : String := astroChunk52 ++ astroSfx53
def astroSfx51 : String := astroChunk51 ++ astroSfx52
def astroSfx50 : String := astroChunk50 ++ astroSfx51
def astroSfx49 : String := astroChunk49 ++ astroSfx50
def astroSfx48 : String := astroChunk48 ++ astroSfx49
def astroSfx47 : String := astroChunk47 ++ astroSfx48
def astroSfx46 : String := astroChunk46 ++ astroSfx47
def astroSfx45 : String := astroChunk45 ++ astroSfx46
def astroSfx44 : String := astroChunk44 ++ astroSfx45
def astroSfx43 : String := astroChunk43 ++ astroSfx44
def astroSfx42 : String := astroChunk42 ++ astroSfx43
def astroSfx41 : String := astroChunk41 ++ astroSfx42
def astroSfx40 : String := astroChunk40 ++ astroSfx41
def astroSfx39 : String := astroChunk39 ++ astroSfx40
def astroSfx38 : String := astroChunk38 ++ astroSfx39
def astroSfx37 : String := astroChunk37 ++ astroSfx38
def astroSfx36 : String := astroChunk36 ++ astroSfx37
def astroSfx35 : String := astroChunk35 ++ astroSfx36
def astroSfx34 : String := astroChunk34 ++ astroSfx35
def astroSfx33 : String := astroChunk33 ++ astroSfx34
def astroSfx32 : String := astroChunk32 ++ astroSfx33
def astroSfx31 : String := astroChunk31 ++ astroSfx32
def astroSfx30 : String := astroChunk30 ++ astroSfx31
def astroSfx29 : String := astroChunk29 ++ astroSfx30
def astroSfx28 : String := astroChunk28 ++ astroSfx29
def astroSfx27 : String := astroChunk27 ++ astroSfx28
def astroSfx26 : String := astroChunk26 ++ astroSfx27
def astroSfx25 : String := astroChunk25 ++ astroSfx26
def astroSfx24 : String := astroChunk24 ++ astroSfx25
def astroSfx23 : String := astroChunk23 ++ astroSfx24
def astroSfx22 : String := astroChunk22 ++ astroSfx23
def astroSfx21 : String := astroChunk21 ++ astroSfx22
def astroSfx20 : String := astroChunk20 ++ astroSfx21
def astroSfx19 : String := astroChunk19 ++ astroSfx20
def astroSfx18 : String := astroChunk18 ++ astroSfx19
def astroSfx17 : String := astroChunk17 ++ astroSfx18
def astroSfx16 : String := astroChunk16 ++ astroSfx17
def astroSfx15 : String := astroChunk15 ++ astroSfx16
def astroSfx14 : String := astroChunk14 ++ astroSfx15
def astroSfx13 : String := astroChunk13 ++ astroSfx14
def astroSfx12 : String := astroChunk12 ++ astroSfx13
def astroSfx11 : String := astroChunk11 ++ astroSfx12
def astroSfx10 : String := astroChunk10 ++ astroSfx11
def astroSfx9 : String := astroChunk9 ++ astroSfx10
def astroSfx8 : String := astroChunk8 ++ astroSfx9
def astroSfx7 : String := astroChunk7 ++ astroSfx8
def astroSfx6 : String := astroChunk6 ++ astroSfx7
def astroSfx5 : String := astroChunk5 ++ astroSfx6
def astroSfx4 : String := astroChunk4 ++ astroSfx5
def astroSfx3 : String := astroChunk3 ++ astroSfx4
def astroSfx2 : String := astroChunk2 ++ astroSfx3
def astroSfx1 : String := astroChunk1 ++ astroSfx2
def astroSfx0 : String := astroChunk0 ++ astroSfx1

/-- The Astro page template literal of source lines 88-463, as the
concatenation of its chunks. -/
def astroText : String := astroSfx0

def cssChunk0 : String := "/* ══════════════════════════════"
def cssChunk1 : String := "══════════════════════════════"
def cssChunk2 : String := "═══════════════\n   DCS Audit Landing Page Styles — NexTara AI Solutions\n   Version: 1.0.0 | PromptCore v3.7 Aligned\n   ══════════════════════════════"
def cssChunk3 : String := "══════════════════════════════"
def cssChunk4 : String := "══════════════"
def cssChunk5 : String := "═ */\n\n/* Audit Hero Variant */\n.hero-section--audit \x7b\n  /* Inherits base hero styles */\n\x7d\n\n/* Executive Summary Grid */\n.audit-summary-grid \x7b\n  display: grid;\n  gap: var(--space-md, 1.5rem);\n\x7d\n\n@media (min-width: 768px) \x7b\n  .audit-summary-grid \x7b\n    grid-t"
def cssChunk6 : String := "emplate-columns: repeat(2, minmax(0, 1fr));\n  \x7d\n\x7d\n\n.audit-summary-card \x7b\n  border: 1px solid var(--border-subtle, #1f2933);\n  border-radius: var(--radius-lg, 1rem);\n  padding: var(--space-md, 1.5rem);\n  background: var(--surface-elevated, #020617);\n\x7d\n\n.aud"
def cssChunk7 : String := "it-summary-card .card-label \x7b\n  font-size: 0.85rem;\n  text-transform: uppercase;\n  letter-spacing: 0.06em;\n  opacity: 0.8;\n  margin-bottom: var(--space-xs, 0.5rem);\n\x7d\n\n.audit-summary-card .card-value \x7b\n  font-weight: 600;\n  margin-bottom: var(--space-xs, 0"
def cssChunk8 : String := ".5rem);\n\x7d\n\n.audit-summary-card .card-note \x7b\n  font-size: 0.9rem;\n  opacity: 0.9;\n\x7d\n\n/* Process Steps */\n.steps-grid \x7b\n  display: grid;\n  gap: var(--space-md, 1.5rem);\n\x7d\n\n@media (min-width: 768px) \x7b\n  .steps-grid \x7b\n    grid-template-columns: repeat(4, minma"
def cssChunk9 : String := "x(0, 1fr));\n  \x7d\n\x7d\n\n.step \x7b\n  border-radius: var(--radius-lg, 1rem);\n  padding: var(--space-md, 1.5rem);\n  border: 1px solid var(--border-subtle, #1f2933);\n  background: var(--surface-elevated, #020617);\n\x7d\n\n.step-number \x7b\n  width: 2rem;\n  height: 2rem;\n  bo"
def cssChunk10 : String := "rder-radius: 50%;\n  display: flex;\n  align-items: center;\n  justify-content: center;\n  font-weight: 600;\n  margin-bottom: var(--space-sm, 0.75rem);\n  border: 1px solid var(--accent, #3b82f6);\n  color: var(--accent, #3b82f6);\n\x7d\n\n.step-title \x7b\n  margin-botto"
def cssChunk11 : String := "m: var(--space-xs, 0.5rem);\n\x7d\n\n/* Risk Classification Grid */\n.risk-grid \x7b\n  display: grid;\n  gap: var(--space-md, 1.5rem);\n\x7d\n\n@media (min-width: 768px) \x7b\n  .risk-grid \x7b\n    grid-template-columns: repeat(3, minmax(0, 1fr));\n  \x7d\n\x7d\n\n.risk-card \x7b\n  border-rad"
def cssChunk12 : String := "ius: var(--radius-lg, 1rem);\n  padding: var(--space-md, 1.5rem);\n  border: 1px solid var(--border-subtle, #1f2933);\n  background: var(--surface-elevated, #020617);\n\x7d\n\n.risk-card--critical \x7b border-color: var(--critical, #ef4444); \x7d\n.risk-card--high \x7b borde"
def cssChunk13 : String := "r-color: var(--warn, #f59e0b); \x7d\n.risk-card--medium \x7b border-color: var(--info, #38bdf8); \x7d\n\n.risk-card .card-note \x7b\n  font-size: 0.9rem;\n  opacity: 0.9;\n  margin-bottom: var(--space-sm, 0.75rem);\n\x7d\n\n/* FAQ Accordion */\n.faq-list \x7b\n  display: grid;\n  gap: "
def cssChunk14 : String := "var(--space-sm, 1.25rem);\n\x7d\n\n.faq-item \x7b\n  border-radius: var(--radius-lg, 1rem);\n  padding: 1.25rem var(--space-md, 1.5rem);\n  border: 1px solid var(--border-subtle, #1f2933);\n  background: var(--surface-elevated, #020617);\n\x7d\n\n.faq-question \x7b\n  margin-bot"
def cssChunk15 : String := "tom: var(--space-xs, 0.5rem);\n\x7d\n\n.faq-answer \x7b\n  font-size: 0.95rem;\n  opacity: 0.95;\n\x7d\n\n/* Audit Form */\n.audit-form .form-field \x7b\n  margin-bottom: var(--space-sm, 1rem);\n\x7d\n\n.audit-form .btn-block \x7b\n  width: 100%;\n\x7d\n\n/* Focus states for accessibility */\n"
def cssChunk16 : String := ".audit-form input:focus,\n.audit-form select:focus,\n.audit-form textarea:focus \x7b\n  outline: 2px solid var(--accent, #3b82f6);\n  outline-offset: 2px;\n\x7d\n"

/-- The stylesheet literal of source lines 536-686, as the
concatenation of its chunks. -/
def cssText : String := cssChunk0 ++ (cssChunk1 ++ (cssChunk2 ++ (cssChunk3 ++ (cssChunk4 ++ (cssChunk5 ++ (cssChunk6 ++ (cssChunk7 ++ (cssChunk8 ++ (cssChunk9 ++ (cssChunk10 ++ (cssChunk11 ++ (cssChunk12 ++ (cssChunk13 ++ (cssChunk14 ++ (cssChunk15 ++ (cssChunk16))))))))))))))))

/-- The fixed README template text before the version substitution
(source lines 691-693). -/
def readmeA : String := "# Digital Credibility Score Audit — Implementation Package\n\n**Version:** "

/-- The README template text between the version and the alignment
substitutions (source line 694). -/
def readmeB : String := "\n**PromptCore Alignment:** "

/-- The README template text between the alignment and the timestamp
substitutions (source line 695). -/
def readmeC : String := "\n**Generated:** "

def readmeD0 : String := "\n\n## Contents\n\n- `src/pages/digital-credibility-score-audit.astro` — Page component\n- `styles/audit-styles.css` — Component styles\n- `public/schema-audit.json` — JSON-LD structured data\n- `docs/dcs-framework.md` — Framework documentation\n- "
def readmeD1 : String := "`build-manifest.json` — Reproducibility manifest with checksums\n\n## Integration Steps\n\n1. Copy `digital-credibility-score-audit.astro` to `src/pages/`\n2. Import `audit-styles.css` in your global stylesheet\n3. Inject `schema-audit.json` via "
def readmeD2 : String := "build-time import or script tag\n4. Update homepage CTAs to link to `/digital-credibility-score-audit`\n5. Configure Netlify Forms for `dcs-audit-request` form name\n\n## Verification\n\nRun checksums against `build-manifest.json` to verify artif"
def readmeD3 : String := "act integrity.\n\n## Form Configuration\n\nThe form includes `data-netlify=\"true\"` and `name=\"dcs-audit-request\"` for\nautomatic Netlify Forms integration. Ensure Netlify Forms is enabled in your\nsite settings.\n"

/-- The fixed README template text after the timestamp substitution
(source lines 695-722), as the concatenation of its chunks. -/
def readmeD : String := readmeD0 ++ (readmeD1 ++ (readmeD2 ++ (readmeD3)))

/-! ### Configuration, reports, manifest (source lines 26-51) -/

/-- Source lines 26-39: the immutable build configuration.  The field
`zip_compression` holds the numeric value of `zipfile.ZIP_DEFLATED`,
and the size thresholds are byte counts. -/
structure BuildConfig where
  version : String
  promptcore_ver : String
  domain : String
  page_slug : String
  encoding : String
  zip_compression : Nat
  min_astro_size : Nat
  min_css_size : Nat
  required_schema_types : List String

/-- The default field values of `BuildConfig` (the only configuration
`main` ever constructs). -/
def defaultConfig : BuildConfig :=
  ⟨"1.0.0-enterprise", "v3.7", "https://www.nextara-ai-solutions.com",
   "digital-credibility-score-audit", "utf-8", 8, 5000, 500,
   ["WebPage", "Service", "FAQPage"]⟩

/-- Source lines 734-810: a validation report, the dict
`{"passed": bool, "checks": [str]}` each validator returns. -/
structure VReport where
  passed : Bool
  checks : List String
deriving DecidableEq

/-- Source lines 42-51: the build manifest.  The three dictionaries are
modelled as insertion-ordered association lists, as Python dicts are. -/
structure BuildManifest where
  version : String
  promptcore_ver : String
  generated_at : String
  hostname : String
  artifacts : List (String × String)
  checksums : List (String × String)
  validation : List (String × VReport)

/-- The exceptions that can escape `build_package`: the distinguished
`ValidationError` (source lines 729-731), a codec lookup or encoding
failure raised by `str.encode`, and an OS-level write failure raised by
`safe_write` (source lines 822-835 log and re-raise it). -/
inductive BuildErr where
  | validationError
  | codecError
  | osError
deriving DecidableEq

/-- One filesystem write: the path written and the string content
passed to `Path.write_text` (the bytes on disk are its encoding under
the configuration's codec). -/
structure WriteOp where
  path : String
  content : String

/-! ### Content generators (source lines 86-722) -/

/-- Source lines 86-463: the Astro page template.  The function ignores
its configuration argument; the returned text is the fixed literal. -/
def generate_astro_content (_config : BuildConfig) : String := astroText

/-- Source lines 534-686: the stylesheet text, a fixed literal. -/
def generate_css : String := cssText

/-- Source lines 466-531: the JSON-LD schema document, a dict whose
URLs join the configured domain and page slug. -/
def generate_schema (config : BuildConfig) : List (String × JVal) :=
  let base_url := config.domain ++ "/" ++ config.page_slug
  [("@context", .str "https://schema.org"),
   ("@graph", .arr [
     .obj [("@type", .str "WebPage"),
           ("@id", .str base_url),
           ("url", .str base_url),
           ("name", .str "Digital Credibility Score Audit | NexTara AI Solutions"),
           ("description", .str "Request a Digital Credibility Score Audit to understand whether your current website can realistically reach a DCS 900+ standard."),
           ("isPartOf", .obj [("@id", .str (config.domain ++ "/#website"))]),
           ("primaryImageOfPage", .obj [("@type", .str "ImageObject"), ("@id", .str (config.domain ++ "/#dcs-audit-hero-image"))])],
     .obj [("@type", .str "Service"),
           ("@id", .str (config.domain ++ "/#dcs-audit-service")),
           ("name", .str "Digital Credibility Score Audit"),
           ("provider", .obj [("@type", .str "Organization"), ("name", .str "NexTara AI Solutions")]),
           ("description", .str "A governance-grade diagnostic that evaluates your website across five pillars of the Digital Credibility Score framework."),
           ("areaServed", .obj [("@type", .str "AdministrativeArea"), ("name", .str "United States")])],
     .obj [("@type", .str "FAQPage"),
           ("@id", .str (config.domain ++ "/#dcs-audit-faq")),
           ("mainEntity", .arr [
             .obj [("@type", .str "Question"),
                   ("name", .str "Is this just an SEO audit with a different label?"),
                   ("acceptedAnswer", .obj [("@type", .str "Answer"), ("text", .str "No. A DCS Audit includes SEO and schema, but it also evaluates conversion, trust, analytics, and governance.")])],
             .obj [("@type", .str "Question"),
                   ("name", .str "Can my current agency or developer use this audit?"),
                   ("acceptedAnswer", .obj [("@type", .str "Answer"), ("text", .str "Yes. The audit is vendor-neutral. You keep the score, the findings, and the documentation.")])],
             .obj [("@type", .str "Question"),
                   ("name", .str "What if my score is already high?"),
                   ("acceptedAnswer", .obj [("@type", .str "Answer"), ("text", .str "The audit focuses on unlocking specific opportunities: AI visibility, conversion lift, and governance hardening.")])],
             .obj [("@type", .str "Question"),
                   ("name", .str "Will you try to sell me a full website rebuild?"),
                   ("acceptedAnswer", .obj [("@type", .str "Answer"), ("text", .str "Only if the data justifies it. The DCS Audit is designed to answer: Can this website realistically operate as a DCS 900+ asset?")])]])]])]

/-- Source lines 689-722: the README f-string with the version, the
alignment tag and a wall-clock ISO timestamp substituted; the clock
read is passed in as `now_iso`. -/
def generate_readme (config : BuildConfig) (now_iso : String) : String :=
  readmeA ++ config.version ++ readmeB ++ config.promptcore_ver ++ readmeC ++ now_iso ++ readmeD

/-! ### Validators (source lines 734-810) -/

/-- The shared required-substring loop of `validate_astro` and
`validate_css` (source lines 747-753 and 802-808): the pass flag and
the accumulated check messages. -/
def presenceChecks (content : String) (elems : List String) : Bool × List String :=
  elems.foldl
    (fun acc elem =>
      if strContains content elem then (acc.1, acc.2 ++ ["PASS: Contains \x27" ++ elem ++ "\x27"])
      else (false, acc.2 ++ ["FAIL: Missing \x27" ++ elem ++ "\x27"]))
    (true, [])

/-- Source lines 734-762: size check in the configured encoding, five
required markup substrings, and the tolerant form-label check (the
lower-cased pattern or the exact quoted pattern).  An unknown codec
makes `content.encode` raise before any check, modelled as an error. -/
def validate_astro (content : String) (config : BuildConfig) : Except BuildErr VReport :=
  if supportedEncoding config.encoding then
    let size := (encodeBytes config.encoding content).length
    let sizePair : Bool × String :=
      if size < config.min_astro_size then
        (false, "FAIL: Size " ++ toString size ++ "B < " ++ toString config.min_astro_size ++ "B minimum")
      else (true, "PASS: Size " ++ toString size ++ "B")
    let pres := presenceChecks content ["<main>", "</main>", "BaseLayout", "hero-section", "audit-form"]
    let labelOk := strContains (lowerStr content) "label for=" || strContains content "label for=\x22"
    let labelMsg := if labelOk then "PASS: Form labels present" else "FAIL: Missing form labels"
    .ok ⟨sizePair.1 && pres.1 && labelOk, sizePair.2 :: pres.2 ++ [labelMsg]⟩
  else .error .codecError

/-- Whether some graph item's "@type" value is the given string: the
membership test `req_type in found_types` of source line 781, where
`found_types` is the set of `item.get("@type")` values. -/
def hasType (items : List JVal) (t : String) : Bool :=
  items.any (fun item =>
    match jget item "@type" with
    | some (.str s) => s == t
    | _ => false)

/-- The required-type loop of `validate_schema` (source lines 780-785). -/
def typeChecks (items : List JVal) (ts : List String) : Bool × List String :=
  ts.foldl
    (fun acc t =>
      if hasType items t then (acc.1, acc.2 ++ ["PASS: Contains " ++ t])
      else (false, acc.2 ++ ["FAIL: Missing " ++ t]))
    (true, [])

/-- Source lines 765-787: the "@context" field must equal the literal
"https://schema.org" and every configured required type must occur
among the top-level graph items' "@type" values. -/
def validate_schema (schema : List (String × JVal)) (config : BuildConfig) : VReport :=
  let ctxOk : Bool :=
    match lookupKV schema "@context" with
    | some (.str s) => s == "https://schema.org"
    | _ => false
  let ctxMsg := if ctxOk then "PASS: Valid @context" else "FAIL: Invalid @context"
  let tc := typeChecks (graphItems schema) config.required_schema_types
  ⟨ctxOk && tc.1, ctxMsg :: tc.2⟩

/-- Source lines 790-810: size check in the configured encoding and
four required selector substrings. -/
def validate_css (content : String) (config : BuildConfig) : Except BuildErr VReport :=
  if supportedEncoding config.encoding then
    let size := (encodeBytes config.encoding content).length
    let sizePair : Bool × String :=
      if size < config.min_css_size then
        (false, "FAIL: Size " ++ toString size ++ "B < " ++ toString config.min_css_size ++ "B minimum")
      else (true, "PASS: Size " ++ toString size ++ "B")
    let pres := presenceChecks content [".audit-summary-grid", ".risk-grid", ".faq-list", ".audit-form"]
    .ok ⟨sizePair.1 && pres.1, sizePair.2 :: pres.2⟩
  else .error .codecError

/-! ### The build (source lines 852-953) -/

/-- The markup path `output_dir/src/pages/<slug>.astro` (source 918). -/
def astroPath (od : String) (config : BuildConfig) : String :=
  od ++ "/src/pages/" ++ config.page_slug ++ ".astro"

/-- The schema path `output_dir/public/schema-audit.json` (source 923). -/
def schemaPath (od : String) : String := od ++ "/public/schema-audit.json"

/-- The stylesheet path `output_dir/styles/audit-styles.css` (source 929). -/
def cssPath (od : String) : String := od ++ "/styles/audit-styles.css"

/-- The README path `output_dir/docs/readme.md` (source 934). -/
def readmePath (od : String) : String := od ++ "/docs/readme.md"

/-- The manifest path `output_dir/build-manifest.json` (source 940). -/
def manifestPath (od : String) : String := od ++ "/build-manifest.json"

/-- Source line 924: `json.dumps(schema_content, indent=2, ensure_ascii=False)`. -/
def schema_str (config : BuildConfig) : String :=
  jsonDumpsVal 32 false 0 (JVal.obj (generate_schema config))

/-- The manifest dict of source lines 941-949, as a JSON value. -/
def manifestToJVal (m : BuildManifest) : JVal :=
  .obj [("version", .str m.version),
        ("promptcore_ver", .str m.promptcore_ver),
        ("generated_at", .str m.generated_at),
        ("hostname", .str m.hostname),
        ("artifacts", .obj (m.artifacts.map (fun p => (p.1, JVal.str p.2)))),
        ("checksums", .obj (m.checksums.map (fun p => (p.1, JVal.str p.2)))),
        ("validation", .obj (m.validation.map (fun p =>
          (p.1, JVal.obj [("passed", JVal.bool p.2.passed),
                          ("checks", JVal.arr (p.2.checks.map JVal.str))]))))]

/-- Source line 950: `json.dumps(manifest_dict, indent=2)` (with the
default `ensure_ascii=True`). -/
def manifest_str (m : BuildManifest) : String := jsonDumpsVal 32 true 0 (manifestToJVal m)

/-- The manifest a successful non-dry-run build returns: paths,
checksums over the UTF-8 bytes of each content string, and the three
validation reports (source lines 918-951). -/
def fullManifest (od : String) (config : BuildConfig) (nowM nowR host : String)
    (av sv cv : VReport) : BuildManifest :=
  ⟨config.version, config.promptcore_ver, nowM, host,
   [("astro", astroPath od config), ("schema", schemaPath od), ("css", cssPath od), ("readme", readmePath od)],
   [("astro", compute_checksum (generate_astro_content config)),
    ("schema", compute_checksum (schema_str config)),
    ("css", compute_checksum generate_css),
    ("readme", compute_checksum (generate_readme config nowR))],
   [("astro", av), ("schema", sv), ("css", cv)]⟩

/-- The five writes of a fully successful build, in program order:
markup, schema, stylesheet, README, manifest (source lines 918-951). -/
def buildWrites (od : String) (config : BuildConfig) (nowM nowR host : String)
    (av sv cv : VReport) : List WriteOp :=
  [⟨astroPath od config, generate_astro_content config⟩,
   ⟨schemaPath od, schema_str config⟩,
   ⟨cssPath od, generate_css⟩,
   ⟨readmePath od, generate_readme config nowR⟩,
   ⟨manifestPath od, manifest_str (fullManifest od config nowM nowR host av sv cv)⟩]

/-- Source lines 852-953: `build_package`.  The two wall-clock reads
(the manifest timestamp at line 863 and the README timestamp at line
695) are the parameters `nowM` and `nowR`; the hostname lookup of line
864 is `hostname`; `fsFail` injects OS-level write failures by path
(a failing `safe_write` logs and re-raises, leaving earlier writes on
disk).  Validation runs before any write; a failed report raises the
distinguished `ValidationError`; a dry run stops after validation and
returns the manifest with empty path and checksum maps. -/
def build_package (output_dir : String) (config : BuildConfig) (nowM nowR hostname : String)
    (dry_run : Bool) (fsFail : String → Bool) :
    List WriteOp × Except BuildErr BuildManifest :=
  match validate_astro (generate_astro_content config) config with
  | .error e => ([], .error e)
  | .ok astro_validation =>
    match validate_css generate_css config with
    | .error e => ([], .error e)
    | .ok css_validation =>
      let schema_validation := validate_schema (generate_schema config) config
      if astro_validation.passed && schema_validation.passed && css_validation.passed then
        if dry_run then
          ([], .ok ⟨config.version, config.promptcore_ver, nowM, hostname, [], [],
            [("astro", astro_validation), ("schema", schema_validation), ("css", css_validation)]⟩)
        else
          if fsFail (astroPath output_dir config) then ([], .error .osError)
          else if fsFail (schemaPath output_dir) then
            ([⟨astroPath output_dir config, generate_astro_content config⟩], .error .osError)
          else if fsFail (cssPath output_dir) then
            ([⟨astroPath output_dir config, generate_astro_content config⟩,
              ⟨schemaPath output_dir, schema_str config⟩], .error .osError)
          else if fsFail (readmePath output_dir) then
            ([⟨astroPath output_dir config, generate_astro_content config⟩,
              ⟨schemaPath output_dir, schema_str config⟩,
              ⟨cssPath output_dir, generate_css⟩], .error .osError)
          else if fsFail (manifestPath output_dir) then
            ([⟨astroPath output_dir config, generate_astro_content config⟩,
              ⟨schemaPath output_dir, schema_str config⟩,
              ⟨cssPath output_dir, generate_css⟩,
              ⟨readmePath output_dir, generate_readme config nowR⟩], .error .osError)
          else
            (buildWrites output_dir config nowM nowR hostname astro_validation schema_validation css_validation,
             .ok (fullManifest output_dir config nowM nowR hostname astro_validation schema_validation css_validation))
      else ([], .error .validationError)

/-- Source lines 1033-1060: how `main` converts exceptions into the
process exit code.  A raising backup precedes the build; `zipRaises`
models a failing `create_zip` after a successful non-dry-run build with
the zip flag set; `ValidationError` maps to 1, any other exception to
2, and a clean run returns 0. -/
def main_exit_code (backupRaises : Bool)
    (buildResult : List WriteOp × Except BuildErr BuildManifest) (zipRaises : Bool) : Nat :=
  if backupRaises then 2
  else
    match buildResult.2 with
    | .ok _ => if zipRaises then 2 else 0
    | .error .validationError => 1
    | .error _ => 2

/-- Whether a validator result is a report that passed. -/
def vrOk : Except BuildErr VReport → Bool
  | .ok r => r.passed
  | .error _ => false

/-- First-match lookup in a string-valued association list (the
checksum and artifact maps of the manifest). -/
def lookupStr : List (String × String) → String → Option String
  | [], _ => none
  | (k, v) :: rest, key => if k == key then some v else lookupStr rest key

/-- The write-failure oracle of a healthy filesystem. -/
def noFail : String → Bool := fun _ => false

/-! ### Concrete configurations used by the theorems -/

/-- The default configuration with the codec name "utf-8-sig": a valid
CPython codec that prefixes a byte order mark, so the bytes written
differ from the UTF-8 bytes the checksum is computed over. -/
def cfgSig : BuildConfig :=
  ⟨"1.0.0-enterprise", "v3.7", "https://www.nextara-ai-solutions.com",
   "digital-credibility-score-audit", "utf-8-sig", 8, 5000, 500,
   ["WebPage", "Service", "FAQPage"]⟩

/-- The default configuration with an extra required schema type that
the generated graph does not contain, so schema validation fails. -/
def cfgBadSchema : BuildConfig :=
  ⟨"1.0.0-enterprise", "v3.7", "https://www.nextara-ai-solutions.com",
   "digital-credibility-score-audit", "utf-8", 8, 5000, 500,
   ["WebPage", "Service", "FAQPage", "Organization"]⟩

/-- The default configuration with a markup size threshold above the
size of the generated markup. -/
def cfgBigMin : BuildConfig :=
  ⟨"1.0.0-enterprise", "v3.7", "https://www.nextara-ai-solutions.com",
   "digital-credibility-score-audit", "utf-8", 8, 1000000, 500,
   ["WebPage", "Service", "FAQPage"]⟩

/-- The example configuration of the specification scenario:
domain "https://example.com" and page slug "audit". -/
def cfgExample : BuildConfig :=
  ⟨"1.0.0-enterprise", "v3.7", "https://example.com", "audit", "utf-8", 8,
   5000, 500, ["WebPage", "Service", "FAQPage"]⟩

/-- A configuration differing from the default only in domain and
page slug. -/
def cfgAltLinks : BuildConfig :=
  ⟨"1.0.0-enterprise", "v3.7", "https://alt.example.org", "other-page", "utf-8", 8,
   5000, 500, ["WebPage", "Service", "FAQPage"]⟩

/-- A fixed ISO timestamp standing for one wall-clock read. -/
def nowCex : String := "2026-01-01T00:00:00+00:00"

/-! ### Generic lemmas about the byte and string primitives -/

theorem utf8Bytes_append (s t : String) :
    utf8Bytes (s ++ t) = utf8Bytes s ++ utf8Bytes t := by
  simp [utf8Bytes]

theorem encodeBytes_utf8 (s : String) : encodeBytes "utf-8" s = utf8Bytes s := rfl

theorem encodeBytes_sig (s : String) :
    encodeBytes "utf-8-sig" s = 239 :: 187 :: 191 :: utf8Bytes s := rfl

theorem encodeBytes_sig_ne_utf8 (s : String) : encodeBytes "utf-8-sig" s ≠ utf8Bytes s := by
  intro h
  have hlen := congrArg List.length h
  simp [encodeBytes_sig] at hlen
  omega

theorem leadsWith_append (ns l l2 : List Char) (h : leadsWith ns l = true) :
    leadsWith ns (l ++ l2) = true := by
  induction ns generalizing l with
  | nil => simp [leadsWith]
  | cons n ns ih =>
    cases l with
    | nil => simp [leadsWith] at h
    | cons x xs =>
      simp only [leadsWith, Bool.and_eq_true] at h ⊢
      exact ⟨h.1, ih xs h.2⟩

theorem containsSub_nil_needle (l : List Char) : containsSub [] l = true := by
  cases l <;> simp [containsSub, leadsWith]

theorem containsSub_append_left (ns l l2 : List Char) (h : containsSub ns l = true) :
    containsSub ns (l ++ l2) = true := by
  induction l with
  | nil =>
    cases ns with
    | nil => simpa using containsSub_nil_needle l2
    | cons n ns => simp [containsSub, leadsWith] at h
  | cons x xs ih =>
    simp only [containsSub, Bool.or_eq_true] at h ⊢
    rcases h with h | h
    · exact Or.inl (leadsWith_append _ _ _ h)
    · exact Or.inr (ih h)

theorem containsSub_append_right (ns l l2 : List Char) (h : containsSub ns l2 = true) :
    containsSub ns (l ++ l2) = true := by
  induction l with
  | nil => simpa using h
  | cons x xs ih =>
    simp only [containsSub, Bool.or_eq_true]
    exact Or.inr ih

theorem strContains_append_left (s t p : String) (h : strContains s p = true) :
    strContains (s ++ t) p = true := by
  have : (s ++ t).data = s.data ++ t.data := String.data_append s t
  unfold strContains at h ⊢
  rw [this]
  exact containsSub_append_left _ _ _ h

theorem strContains_append_right (s t p : String) (h : strContains t p = true) :
    strContains (s ++ t) p = true := by
  have : (s ++ t).data = s.data ++ t.data := String.data_append s t
  unfold strContains at h ⊢
  rw [this]
  exact containsSub_append_right _ _ _ h

/-! ### The presence-check and type-check folds -/

theorem presenceChecks_fold (c : String) (es : List String) (b : Bool) (acc : List String) :
    (es.foldl
      (fun acc2 elem =>
        if strContains c elem then (acc2.1, acc2.2 ++ ["PASS: Contains \x27" ++ elem ++ "\x27"])
        else (false, acc2.2 ++ ["FAIL: Missing \x27" ++ elem ++ "\x27"]))
      (b, acc)).1 = (b && es.all (fun e => strContains c e)) := by
  induction es generalizing b acc with
  | nil => simp
  | cons e es ih =>
    by_cases h : strContains c e = true
    · simp [h, ih, List.all_cons]
    · simp only [Bool.not_eq_true] at h
      simp [h, ih, List.all_cons]

theorem presenceChecks_fst (c : String) (es : List String) :
    (presenceChecks c es).1 = es.all (fun e => strContains c e) := by
  unfold presenceChecks
  rw [presenceChecks_fold]
  simp

theorem typeChecks_fold (items : List JVal) (ts : List String) (b : Bool) (acc : List String) :
    (ts.foldl
      (fun acc2 t =>
        if hasType items t then (acc2.1, acc2.2 ++ ["PASS: Contains " ++ t])
        else (false, acc2.2 ++ ["FAIL: Missing " ++ t]))
      (b, acc)).1 = (b && ts.all (hasType items)) := by
  induction ts generalizing b acc with
  | nil => simp
  | cons t ts ih =>
    by_cases h : hasType items t = true
    · simp [h, ih, List.all_cons]
    · simp only [Bool.not_eq_true] at h
      simp [h, ih, List.all_cons]

theorem typeChecks_fst (items : List JVal) (ts : List String) :
    (typeChecks items ts).1 = ts.all (hasType items) := by
  unfold typeChecks
  rw [typeChecks_fold]
  simp

/-- The pass flag of `validate_schema` is exactly the context test
conjoined with the required-type membership tests. -/
theorem validate_schema_passed (schema : List (String × JVal)) (cfg : BuildConfig) :
    (validate_schema schema cfg).passed =
      ((match lookupKV schema "@context" with
        | some (.str s) => s == "https://schema.org"
        | _ => false) &&
       cfg.required_schema_types.all (hasType (graphItems schema))) := by
  unfold validate_schema
  simp [typeChecks_fst]

/-- If every `item.get("@type")` value of the first graph also occurs
among those of the second, a type found in the first is found in the
second. -/
theorem hasType_mono (its1 its2 : List JVal) (t : String)
    (hm : ∀ o : Option JVal, o ∈ its1.map (fun item => jget item "@type") →
      o ∈ its2.map (fun item => jget item "@type"))
    (h1 : hasType its1 t = true) : hasType its2 t = true := by
  unfold hasType at h1 ⊢
  simp only [List.any_eq_true] at h1 ⊢
  obtain ⟨item, hi, hp⟩ := h1
  have hmem : jget item "@type" ∈ its2.map (fun item => jget item "@type") :=
    hm _ (List.mem_map_of_mem _ hi)
  obtain ⟨item2, hi2, he⟩ := List.mem_map.mp hmem
  refine ⟨item2, hi2, ?_⟩
  rw [he]
  exact hp

/-- The type test only depends on the set of `item.get("@type")`
values: graphs with the same value sets agree on every type. -/
theorem hasType_of_mem_iff (items1 items2 : List JVal)
    (h : ∀ o : Option JVal,
      o ∈ items1.map (fun item => jget item "@type") ↔
      o ∈ items2.map (fun item => jget item "@type")) (t : String) :
    hasType items1 t = hasType items2 t := by
  by_cases hb1 : hasType items1 t = true
  · rw [hb1]
    exact (hasType_mono items1 items2 t (fun o => (h o).mp) hb1).symm
  · by_cases hb2 : hasType items2 t = true
    · exact absurd (hasType_mono items2 items1 t (fun o => (h o).mpr) hb2) hb1
    · simp only [Bool.not_eq_true] at hb1 hb2
      rw [hb1, hb2]

/-! ### Lemmas about the SHA-256 block pipeline -/

theorem toBlocks_nil : toBlocks [] = [] := by
  simp [toBlocks]

theorem toBlocks_cons_eq (b : Nat) (l : List Nat) :
    toBlocks (b :: l) = (b :: l.take 63) :: toBlocks (l.drop 63) := by
  simp [toBlocks]

theorem toBlocks_cons64 (blk rest : List Nat) (h : blk.length = 64) :
    toBlocks (blk ++ rest) = blk :: toBlocks rest := by
  cases blk with
  | nil => simp at h
  | cons b bt =>
    have hbt : bt.length = 63 := by
      simp only [List.length_cons] at h
      omega
    rw [List.cons_append, toBlocks_cons_eq]
    rw [List.take_left' hbt, List.drop_left' hbt]

theorem toBlocks_single (blk : List Nat) (h : blk.length = 64) : toBlocks blk = [blk] := by
  have := toBlocks_cons64 blk [] h
  simpa [toBlocks_nil] using this

theorem shaRun_nil (st : Hash8) : shaRun st [] = st := rfl

theorem shaRun_cons (st : Hash8) (b : List Nat) (bs : List (List Nat)) :
    shaRun st (b :: bs) = shaRun (compressBlock st b) bs := rfl

theorem append_regroup {α : Type} {a b c : List α} {rest : List α} (h : a ++ b = c) :
    a ++ (b ++ rest) = c ++ rest := by
  rw [← List.append_assoc, h]

theorem cons3_regroup {a b c : Nat} {l m rest : List Nat} (h : a :: b :: c :: l = m) :
    a :: b :: c :: (l ++ rest) = m ++ rest := by
  rw [← h]
  simp

/-! ### Validator and build-structure lemmas -/

theorem vrOk_exists {x : Except BuildErr VReport} (h : vrOk x = true) :
    ∃ r, x = .ok r ∧ r.passed = true := by
  cases x with
  | ok r => exact ⟨r, rfl, h⟩
  | error e => simp [vrOk] at h

/-- A successful full run: when both encodable validators return
reports, every report passed, and no write fails, `build_package`
performs the five writes and returns the full manifest. -/
theorem build_package_ok (od : String) (cfg : BuildConfig) (nowM nowR host : String)
    (fs : String → Bool) (av cv : VReport)
    (hA : validate_astro (generate_astro_content cfg) cfg = .ok av)
    (hC : validate_css generate_css cfg = .ok cv)
    (hpa : av.passed = true)
    (hps : (validate_schema (generate_schema cfg) cfg).passed = true)
    (hpc : cv.passed = true)
    (h1 : fs (astroPath od cfg) = false) (h2 : fs (schemaPath od) = false)
    (h3 : fs (cssPath od) = false) (h4 : fs (readmePath od) = false)
    (h5 : fs (manifestPath od) = false) :
    build_package od cfg nowM nowR host false fs =
      (buildWrites od cfg nowM nowR host av (validate_schema (generate_schema cfg) cfg) cv,
       .ok (fullManifest od cfg nowM nowR host av (validate_schema (generate_schema cfg) cfg) cv)) := by
  unfold build_package
  rw [hA, hC]
  simp [hpa, hps, hpc, h1, h2, h3, h4, h5]

/-- A passing dry run returns the manifest with empty path and
checksum maps and performs no write. -/
theorem build_package_dry_ok (od : String) (cfg : BuildConfig) (nowM nowR host : String)
    (fs : String → Bool) (av cv : VReport)
    (hA : validate_astro (generate_astro_content cfg) cfg = .ok av)
    (hC : validate_css generate_css cfg = .ok cv)
    (hpa : av.passed = true)
    (hps : (validate_schema (generate_schema cfg) cfg).passed = true)
    (hpc : cv.passed = true) :
    build_package od cfg nowM nowR host true fs =
      ([], .ok ⟨cfg.version, cfg.promptcore_ver, nowM, host, [], [],
        [("astro", av), ("schema", validate_schema (generate_schema cfg) cfg), ("css", cv)]⟩) := by
  unfold build_package
  rw [hA, hC]
  simp [hpa, hps, hpc]

/-- A failed validation aborts with the distinguished error and no
writes, in dry and full mode alike. -/
theorem build_package_fail (od : String) (cfg : BuildConfig) (nowM nowR host : String)
    (dry : Bool) (fs : String → Bool) (av cv : VReport)
    (hA : validate_astro (generate_astro_content cfg) cfg = .ok av)
    (hC : validate_css generate_css cfg = .ok cv)
    (hp : av.passed = false ∨ (validate_schema (generate_schema cfg) cfg).passed = false ∨
      cv.passed = false) :
    build_package od cfg nowM nowR host dry fs = ([], .error .validationError) := by
  unfold build_package
  rw [hA, hC]
  rcases hp with h | h | h <;> simp [h]

/-- Inversion of a successful full run: it can only have gone through
passing validation, all five writes, and the full manifest. -/
theorem build_ok_inv (od : String) (cfg : BuildConfig) (nowM nowR host : String)
    (fs : String → Bool) (ws : List WriteOp) (m : BuildManifest)
    (h : build_package od cfg nowM nowR host false fs = (ws, .ok m)) :
    ∃ av cv, validate_astro (generate_astro_content cfg) cfg = .ok av ∧
      validate_css generate_css cfg = .ok cv ∧
      av.passed = true ∧ (validate_schema (generate_schema cfg) cfg).passed = true ∧
      cv.passed = true ∧
      ws = buildWrites od cfg nowM nowR host av (validate_schema (generate_schema cfg) cfg) cv ∧
      m = fullManifest od cfg nowM nowR host av (validate_schema (generate_schema cfg) cfg) cv := by
  unfold build_package at h
  split at h
  · simp at h
  rename_i av hA
  split at h
  · simp at h
  rename_i cv hC
  dsimp only at h
  rw [if_neg (by decide : ¬ (false = true))] at h
  by_cases hp : (av.passed && (validate_schema (generate_schema cfg) cfg).passed && cv.passed) = true
  · rw [if_pos hp] at h
    by_cases h1 : fs (astroPath od cfg) = true
    · rw [if_pos h1] at h
      simp at h
    rw [if_neg h1] at h
    by_cases h2 : fs (schemaPath od) = true
    · rw [if_pos h2] at h
      simp at h
    rw [if_neg h2] at h
    by_cases h3 : fs (cssPath od) = true
    · rw [if_pos h3] at h
      simp at h
    rw [if_neg h3] at h
    by_cases h4 : fs (readmePath od) = true
    · rw [if_pos h4] at h
      simp at h
    rw [if_neg h4] at h
    by_cases h5 : fs (manifestPath od) = true
    · rw [if_pos h5] at h
      simp at h
    rw [if_neg h5] at h
    simp only [Prod.mk.injEq, Except.ok.injEq] at h
    simp only [Bool.and_eq_true] at hp
    exact ⟨av, cv, hA, hC, hp.1.1, hp.1.2, hp.2, h.1.symm, h.2.symm⟩
  · rw [if_neg hp] at h
    simp at h

/-- Inversion of a successful dry run. -/
theorem build_dry_inv (od : String) (cfg : BuildConfig) (nowM nowR host : String)
    (fs : String → Bool) (ws : List WriteOp) (m : BuildManifest)
    (h : build_package od cfg nowM nowR host true fs = (ws, .ok m)) :
    ∃ av cv, validate_astro (generate_astro_content cfg) cfg = .ok av ∧
      validate_css generate_css cfg = .ok cv ∧
      av.passed = true ∧ (validate_schema (generate_schema cfg) cfg).passed = true ∧
      cv.passed = true ∧ ws = [] ∧
      m = ⟨cfg.version, cfg.promptcore_ver, nowM, host, [], [],
        [("astro", av), ("schema", validate_schema (generate_schema cfg) cfg), ("css", cv)]⟩ := by
  unfold build_package at h
  split at h
  · simp at h
  rename_i av hA
  split at h
  · simp at h
  rename_i cv hC
  dsimp only at h
  by_cases hp : (av.passed && (validate_schema (generate_schema cfg) cfg).passed && cv.passed) = true
  · rw [if_pos hp, if_pos (show true = true from rfl)] at h
    simp only [Prod.mk.injEq, Except.ok.injEq] at h
    simp only [Bool.and_eq_true] at hp
    exact ⟨av, cv, hA, hC, hp.1.1, hp.1.2, hp.2, h.1.symm, h.2.symm⟩
  · rw [if_neg hp] at h
    simp at h

/-- A dry run never writes, whatever the validation outcome. -/
theorem build_dry_writes_nil (od : String) (cfg : BuildConfig) (nowM nowR host : String)
    (fs : String → Bool) :
    (build_package od cfg nowM nowR host true fs).1 = [] := by
  unfold build_package
  split
  · rfl
  rename_i av hA
  split
  · rfl
  rename_i cv hC
  dsimp only
  by_cases hp : (av.passed && (validate_schema (generate_schema cfg) cfg).passed && cv.passed) = true
  · rw [if_pos hp, if_pos (show true = true from rfl)]
  · rw [if_neg hp]

/-- Inversion of a run that raised the distinguished validation
error: no file was written. -/
theorem build_error_inv (od : String) (cfg : BuildConfig)
    (nowM nowR host : String) (dry : Bool) (fs : String → Bool)
    (ws : List WriteOp) (e : BuildErr)
    (h : build_package od cfg nowM nowR host dry fs = (ws, .error e))
    (he : e = .validationError) : ws = [] := by
  subst he
  unfold build_package at h
  split at h
  · simp only [Prod.mk.injEq] at h
    exact h.1.symm
  rename_i av hA
  split at h
  · simp only [Prod.mk.injEq] at h
    exact h.1.symm
  rename_i cv hC
  dsimp only at h
  by_cases hp : (av.passed && (validate_schema (generate_schema cfg) cfg).passed && cv.passed) = true
  · rw [if_pos hp] at h
    by_cases hd : dry = true
    · rw [if_pos hd] at h
      simp at h
    rw [if_neg hd] at h
    by_cases h1 : fs (astroPath od cfg) = true
    · rw [if_pos h1] at h
      simp only [Prod.mk.injEq] at h
      exact h.1.symm
    rw [if_neg h1] at h
    by_cases h2 : fs (schemaPath od) = true
    · rw [if_pos h2] at h
      simp only [Prod.mk.injEq] at h
      exact absurd h.2 (by simp)
    rw [if_neg h2] at h
    by_cases h3 : fs (cssPath od) = true
    · rw [if_pos h3] at h
      simp only [Prod.mk.injEq] at h
      exact absurd h.2 (by simp)
    rw [if_neg h3] at h
    by_cases h4 : fs (readmePath od) = true
    · rw [if_pos h4] at h
      simp only [Prod.mk.injEq] at h
      exact absurd h.2 (by simp)
    rw [if_neg h4] at h
    by_cases h5 : fs (manifestPath od) = true
    · rw [if_pos h5] at h
      simp only [Prod.mk.injEq] at h
      exact absurd h.2 (by simp)
    rw [if_neg h5] at h
    simp at h
  · rw [if_neg hp] at h
    simp only [Prod.mk.injEq] at h
    exact h.1.symm

/-! ### Byte-level facts about the generated artifacts, established
chunk by chunk, and the concrete SHA-256 computations needed by the
checksum theorems. -/

theorem astroLen0 : (utf8Bytes astroChunk0).length = 256 := by decide
theorem astroLen1 : (utf8Bytes astroChunk1).length = 256 := by decide
theorem astroLen2 : (utf8Bytes astroChunk2).length = 256 := by decide
theorem astroLen3 : (utf8Bytes astroChunk3).length = 258 := by decide
theorem astroLen4 : (utf8Bytes astroChunk4).length = 256 := by decide
theorem astroLen5 : (utf8Bytes astroChunk5).length = 256 := by decide
theorem astroLen6 : (utf8Bytes astroChunk6).length = 256 := by decide
theorem astroLen7 : (utf8Bytes astroChunk7).length = 258 := by decide
theorem astroLen8 : (utf8Bytes astroChunk8).length = 258 := by decide
theorem astroLen9 : (utf8Bytes astroChunk9).length = 258 := by decide
theorem astroLen10 : (utf8Bytes astroChunk10).length = 256 := by decide
theorem astroLen11 : (utf8Bytes astroChunk11).length = 256 := by decide
theorem astroLen12 : (utf8Bytes astroChunk12).length = 258 := by decide
theorem astroLen13 : (utf8Bytes astroChunk13).length = 256 := by decide
theorem astroLen14 : (utf8Bytes astroChunk14).length = 256 := by decide
theorem astroLen15 : (utf8Bytes astroChunk15).length = 256 := by decide
theorem astroLen16 : (utf8Bytes astroChunk16).length = 256 := by decide
theorem astroLen17 : (utf8Bytes astroChunk17).length = 256 := by decide
theorem astroLen18 : (utf8Bytes astroChunk18).length = 256 := by decide
theorem astroLen19 : (utf8Bytes astroChunk19).length = 258 := by decide
theorem astroLen20 : (utf8Bytes astroChunk20).length = 256 := by decide
theorem astroLen21 : (utf8Bytes astroChunk21).length = 256 := by decide
theorem astroLen22 : (utf8Bytes astroChunk22).length = 256 := by decide
theorem astroLen23 : (utf8Bytes astroChunk23).length = 256 := by decide
theorem astroLen24 : (utf8Bytes astroChunk24).length = 256 := by decide
theorem astroLen25 : (utf8Bytes astroChunk25).length = 256 := by decide
theorem astroLen26 : (utf8Bytes astroChunk26).length = 256 := by decide
theorem astroLen27 : (utf8Bytes astroChunk27).length = 256 := by decide
theorem astroLen28 : (utf8Bytes astroChunk28).length = 256 := by decide
theorem astroLen29 : (utf8Bytes astroChunk29).length = 256 := by decide
theorem astroLen30 : (utf8Bytes astroChunk30).length = 256 := by decide
theorem astroLen31 : (utf8Bytes astroChunk31).length = 256 := by decide
theorem astroLen32 : (utf8Bytes astroChunk32).length = 256 := by decide
theorem astroLen33 : (utf8Bytes astroChunk33).length = 258 := by decide
theorem astroLen34 : (utf8Bytes astroChunk34).length = 256 := by decide
theorem astroLen35 : (utf8Bytes astroChunk35).length = 256 := by decide
theorem astroLen36 : (utf8Bytes astroChunk36).length = 256 := by decide
theorem astroLen37 : (utf8Bytes astroChunk37).length = 256 := by decide
theorem astroLen38 : (utf8Bytes astroChunk38).length = 256 := by decide
theorem astroLen39 : (utf8Bytes astroChunk39).length = 256 := by decide
theorem astroLen40 : (utf8Bytes astroChunk40).length = 258 := by decide
theorem astroLen41 : (utf8Bytes astroChunk41).length = 256 := by decide
theorem astroLen42 : (utf8Bytes astroChunk42).length = 256 := by decide
theorem astroLen43 : (utf8Bytes astroChunk43).length = 256 := by decide
theorem astroLen44 : (utf8Bytes astroChunk44).length = 256 := by decide
theorem astroLen45 : (utf8Bytes astroChunk45).length = 256 := by decide
theorem astroLen46 : (utf8Bytes astroChunk46).length = 258 := by decide
theorem astroLen47 : (utf8Bytes astroChunk47).length = 256 := by decide
theorem astroLen48 : (utf8Bytes astroChunk48).length = 258 := by decide
theorem astroLen49 : (utf8Bytes astroChunk49).length = 256 := by decide
theorem astroLen50 : (utf8Bytes astroChunk50).length = 258 := by decide
theorem astroLen51 : (utf8Bytes astroChunk51).length = 256 := by decide
theorem astroLen52 : (utf8Bytes astroChunk52).length = 256 := by decide
theorem astroLen53 : (utf8Bytes astroChunk53).length = 256 := by decide
theorem astroLen54 : (utf8Bytes astroChunk54).length = 256 := by decide
theorem astroLen55 : (utf8Bytes astroChunk55).length = 258 := by decide
theorem astroLen56 : (utf8Bytes astroChunk56).length = 258 := by decide
theorem astroLen57 : (utf8Bytes astroChunk57).length = 256 := by decide
theorem astroLen58 : (utf8Bytes astroChunk58).length = 258 := by decide
theorem astroLen59 : (utf8Bytes astroChunk59).length = 256 := by decide
theorem astroLen60 : (utf8Bytes astroChunk60).length = 256 := by decide
theorem astroLen61 : (utf8Bytes astroChunk61).length = 256 := by decide
theorem astroLen62 : (utf8Bytes astroChunk62).length = 258 := by decide
theorem astroLen63 : (utf8Bytes astroChunk63).length = 256 := by decide
theorem astroLen64 : (utf8Bytes astroChunk64).length = 256 := by decide
theorem astroLen65 : (utf8Bytes astroChunk65).length = 256 := by decide
theorem astroLen66 : (utf8Bytes astroChunk66).length = 256 := by decide
theorem astroLen67 : (utf8Bytes astroChunk67).length = 256 := by decide
theorem astroLen68 : (utf8Bytes astroChunk68).length = 256 := by decide
theorem astroLen69 : (utf8Bytes astroChunk69).length = 256 := by decide
theorem astroLen70 : (utf8Bytes astroChunk70).length = 256 := by decide
theorem astroLen71 : (utf8Bytes astroChunk71).length = 256 := by decide
theorem astroLen72 : (utf8Bytes astroChunk72).length = 256 := by decide
theorem astroLen73 : (utf8Bytes astroChunk73).length = 248 := by decide
theorem astroLen74 : (utf8Bytes astroChunk74).length = 256 := by decide
theorem astroLen75 : (utf8Bytes astroChunk75).length = 79 := by decide

/-- The generated markup is 19301 bytes in UTF-8. -/
theorem astro_utf8_len : (utf8Bytes astroText).length = 19301 := by
  simp only [astroText, astroSfx0, astroSfx1, astroSfx2, astroSfx3, astroSfx4, astroSfx5, astroSfx6, astroSfx7, astroSfx8, astroSfx9, astroSfx10, astroSfx11, astroSfx12, astroSfx13, astroSfx14, astroSfx15, astroSfx16, astroSfx17, astroSfx18, astroSfx19, astroSfx20, astroSfx21, astroSfx22, astroSfx23, astroSfx24, astroSfx25, astroSfx26, astroSfx27, astroSfx28, astroSfx29, astroSfx30, astroSfx31, astroSfx32, astroSfx33, astroSfx34, astroSfx35, astroSfx36, astroSfx37, astroSfx38, astroSfx39, astroSfx40, astroSfx41, astroSfx42, astroSfx43, astroSfx44, astroSfx45, astroSfx46, astroSfx47, astroSfx48, astroSfx49, astroSfx50, astroSfx51, astroSfx52, astroSfx53, astroSfx54, astroSfx55, astroSfx56, astroSfx57, astroSfx58, astroSfx59, astroSfx60, astroSfx61, astroSfx62, astroSfx63, astroSfx64, astroSfx65, astroSfx66, astroSfx67, astroSfx68, astroSfx69, astroSfx70, astroSfx71, astroSfx72, astroSfx73, astroSfx74, astroSfx75,
    utf8Bytes_append, List.length_append, astroLen0, astroLen1, astroLen2, astroLen3, astroLen4, astroLen5, astroLen6, astroLen7, astroLen8, astroLen9, astroLen10, astroLen11, astroLen12, astroLen13, astroLen14, astroLen15, astroLen16, astroLen17, astroLen18, astroLen19, astroLen20, astroLen21, astroLen22, astroLen23, astroLen24, astroLen25, astroLen26, astroLen27, astroLen28, astroLen29, astroLen30, astroLen31, astroLen32, astroLen33, astroLen34, astroLen35, astroLen36, astroLen37, astroLen38, astroLen39, astroLen40, astroLen41, astroLen42, astroLen43, astroLen44, astroLen45, astroLen46, astroLen47, astroLen48, astroLen49, astroLen50, astroLen51, astroLen52, astroLen53, astroLen54, astroLen55, astroLen56, astroLen57, astroLen58, astroLen59, astroLen60, astroLen61, astroLen62, astroLen63, astroLen64, astroLen65, astroLen66, astroLen67, astroLen68, astroLen69, astroLen70, astroLen71, astroLen72, astroLen73, astroLen74, astroLen75]

theorem cssLen0 : (utf8Bytes cssChunk0).length = 93 := by decide
theorem cssLen1 : (utf8Bytes cssChunk1).length = 90 := by decide
theorem cssLen2 : (utf8Bytes cssChunk2).length = 241 := by decide
theorem cssLen3 : (utf8Bytes cssChunk3).length = 90 := by decide
theorem cssLen4 : (utf8Bytes cssChunk4).length = 42 := by decide
theorem cssLen5 : (utf8Bytes cssChunk5).length = 258 := by decide
theorem cssLen6 : (utf8Bytes cssChunk6).length = 256 := by decide
theorem cssLen7 : (utf8Bytes cssChunk7).length = 256 := by decide
theorem cssLen8 : (utf8Bytes cssChunk8).length = 256 := by decide
theorem cssLen9 : (utf8Bytes cssChunk9).length = 256 := by decide
theorem cssLen10 : (utf8Bytes cssChunk10).length = 256 := by decide
theorem cssLen11 : (utf8Bytes cssChunk11).length = 256 := by decide
theorem cssLen12 : (utf8Bytes cssChunk12).length = 256 := by decide
theorem cssLen13 : (utf8Bytes cssChunk13).length = 256 := by decide
theorem cssLen14 : (utf8Bytes cssChunk14).length = 256 := by decide
theorem cssLen15 : (utf8Bytes cssChunk15).length = 255 := by decide
theorem cssLen16 : (utf8Bytes cssChunk16).length = 150 := by decide

/-- The generated stylesheet is 3523 bytes in UTF-8. -/
theorem css_utf8_len : (utf8Bytes cssText).length = 3523 := by
  simp only [cssText, utf8Bytes_append, List.length_append, cssLen0, cssLen1, cssLen2, cssLen3, cssLen4, cssLen5, cssLen6, cssLen7, cssLen8, cssLen9, cssLen10, cssLen11, cssLen12, cssLen13, cssLen14, cssLen15, cssLen16]

theorem astro_has_main : strContains astroText "<main>" = true := by
  simp only [astroText, astroSfx0, astroSfx1]
  apply strContains_append_right
  apply strContains_append_left
  decide

theorem astro_has_main_close : strContains astroText "</main>" = true := by
  simp only [astroText, astroSfx0, astroSfx1, astroSfx2, astroSfx3, astroSfx4, astroSfx5, astroSfx6, astroSfx7, astroSfx8, astroSfx9, astroSfx10, astroSfx11, astroSfx12, astroSfx13, astroSfx14, astroSfx15, astroSfx16, astroSfx17, astroSfx18, astroSfx19, astroSfx20, astroSfx21, astroSfx22, astroSfx23, astroSfx24, astroSfx25, astroSfx26, astroSfx27, astroSfx28, astroSfx29, astroSfx30, astroSfx31, astroSfx32, astroSfx33, astroSfx34, astroSfx35, astroSfx36, astroSfx37, astroSfx38, astroSfx39, astroSfx40, astroSfx41, astroSfx42, astroSfx43, astroSfx44, astroSfx45, astroSfx46, astroSfx47, astroSfx48, astroSfx49, astroSfx50, astroSfx51, astroSfx52, astroSfx53, astroSfx54, astroSfx55, astroSfx56, astroSfx57, astroSfx58, astroSfx59, astroSfx60, astroSfx61, astroSfx62, astroSfx63, astroSfx64, astroSfx65, astroSfx66, astroSfx67, astroSfx68, astroSfx69, astroSfx70, astroSfx71, astroSfx72, astroSfx73, astroSfx74, astroSfx75]
  apply strContains_append_right
  apply strContains_append_right
  apply strContains_append_right
  apply strContains_append_right
  apply strContains_append_right
  apply strContains_append_right
  apply strContains_append_right
  apply strContains_append_right
  apply strContains_append_right
  apply strContains_append_right
  apply strContains_append_right
  apply strContains_append_right
  apply strContains_append_right
  apply strContains_append_right
  apply strContains_append_right
  apply strContains_append_right
  apply strContains_append_right
  apply strContains_append_right
  apply strContains_append_right
  apply strContains_append_right
  apply strContains_append_right
  apply strContains_append_right
  apply strContains_append_right
  apply strContains_append_right
  apply strContains_append_right
  apply strContains_append_right
  apply strContains_append_right
  apply strContains_append_right
  apply strContains_append_right
  apply strContains_append_right
  apply strContains_append_right
  apply strContains_append_right
  apply strContains_append_right
  apply strContains_append_right
  apply strContains_append_right
  apply strContains_append_right
  apply strContains_append_right
  apply strContains_append_right
  apply strContains_append_right
  apply strContains_append_right
  apply strContains_append_right
  apply strContains_append_right
  apply strContains_append_right
  apply strContains_append_right
  apply strContains_append_right
  apply strContains_append_right
  apply strContains_append_right
  apply strContains_append_right
  apply strContains_append_right
  apply strContains_append_right
  apply strContains_append_right
  apply strContains_append_right
  apply strContains_append_right
  apply strContains_append_right
  apply strContains_append_right
  apply strContains_append_right
  apply strContains_append_right
  apply strContains_append_right
  apply strContains_append_right
  apply strContains_append_right
  apply strContains_append_right
  apply strContains_append_right
  apply strContains_append_right
  apply strContains_append_right
  apply strContains_append_right
  apply strContains_append_right
  apply strContains_append_right
  apply strContains_append_right
  apply strContains_append_right
  apply strContains_append_right
  apply strContains_append_right
  apply strContains_append_right
  apply strContains_append_right
  apply strContains_append_right
  apply strContains_append_right
  decide

theorem astro_has_baselayout : strContains astroText "BaseLayout" = true := by
  simp only [astroText, astroSfx0]
  apply strContains_append_left
  decide

theorem astro_has_hero : strContains astroText "hero-section" = true := by
  simp only [astroText, astroSfx0, astroSfx1]
  apply strContains_append_right
  apply strContains_append_left
  decide

theorem astro_has_auditform : strContains astroText "audit-form" = true := by
  simp only [astroText, astroSfx0, astroSfx1, astroSfx2, astroSfx3, astroSfx4, astroSfx5]
  apply strContains_append_right
  apply strContains_append_right
  apply strContains_append_right
  apply strContains_append_right
  apply strContains_append_right
  apply strContains_append_left
  decide

theorem astro_has_labelq : strContains astroText "label for=\x22" = true := by
  simp only [astroText, astroSfx0, astroSfx1, astroSfx2, astroSfx3, astroSfx4, astroSfx5, astroSfx6, astroSfx7, astroSfx8, astroSfx9, astroSfx10, astroSfx11, astroSfx12, astroSfx13, astroSfx14, astroSfx15, astroSfx16, astroSfx17, astroSfx18, astroSfx19, astroSfx20, astroSfx21, astroSfx22, astroSfx23, astroSfx24, astroSfx25, astroSfx26, astroSfx27, astroSfx28, astroSfx29, astroSfx30, astroSfx31, astroSfx32, astroSfx33, astroSfx34, astroSfx35, astroSfx36, astroSfx37, astroSfx38, astroSfx39, astroSfx40, astroSfx41, astroSfx42, astroSfx43, astroSfx44, astroSfx45, astroSfx46, astroSfx47, astroSfx48, astroSfx49, astroSfx50, astroSfx51, astroSfx52, astroSfx53, astroSfx54, astroSfx55, astroSfx56, astroSfx57, astroSfx58, astroSfx59, astroSfx60, astroSfx61, astroSfx62, astroSfx63, astroSfx64, astroSfx65, astroSfx66, astroSfx67, astroSfx68]
  apply strContains_append_right
  apply strContains_append_right
  apply strContains_append_right
  apply strContains_append_right
  apply strContains_append_right
  apply strContains_append_right
  apply strContains_append_right
  apply strContains_append_right
  apply strContains_append_right
  apply strContains_append_right
  apply strContains_append_right
  apply strContains_append_right
  apply strContains_append_right
  apply strContains_append_right
  apply strContains_append_right
  apply strContains_append_right
  apply strContains_append_right
  apply strContains_append_right
  apply strContains_append_right
  apply strContains_append_right
  apply strContains_append_right
  apply strContains_append_right
  apply strContains_append_right
  apply strContains_append_right
  apply strContains_append_right
  apply strContains_append_right
  apply strContains_append_right
  apply strContains_append_right
  apply strContains_append_right
  apply strContains_append_right
  apply strContains_append_right
  apply strContains_append_right
  apply strContains_append_right
  apply strContains_append_right
  apply strContains_append_right
  apply strContains_append_right
  apply strContains_append_right
  apply strContains_append_right
  apply strContains_append_right
  apply strContains_append_right
  apply strContains_append_right
  apply strContains_append_right
  apply strContains_append_right
  apply strContains_append_right
  apply strContains_append_right
  apply strContains_append_right
  apply strContains_append_right
  apply strContains_append_right
  apply strContains_append_right
  apply strContains_append_right
  apply strContains_append_right
  apply strContains_append_right
  apply strContains_append_right
  apply strContains_append_right
  apply strContains_append_right
  apply strContains_append_right
  apply strContains_append_right
  apply strContains_append_right
  apply strContains_append_right
  apply strContains_append_right
  apply strContains_append_right
  apply strContains_append_right
  apply strContains_append_right
  apply strContains_append_right
  apply strContains_append_right
  apply strContains_append_right
  apply strContains_append_right
  apply strContains_append_right
  apply strContains_append_left
  decide

theorem css_has_summary : strContains cssText ".audit-summary-grid" = true := by
  simp only [cssText]
  apply strContains_append_right
  apply strContains_append_right
  apply strContains_append_right
  apply strContains_append_right
  apply strContains_append_right
  apply strContains_append_left
  decide

theorem css_has_risk : strContains cssText ".risk-grid" = true := by
  simp only [cssText]
  apply strContains_append_right
  apply strContains_append_right
  apply strContains_append_right
  apply strContains_append_right
  apply strContains_append_right
  apply strContains_append_right
  apply strContains_append_right
  apply strContains_append_right
  apply strContains_append_right
  apply strContains_append_right
  apply strContains_append_right
  apply strContains_append_left
  decide

theorem css_has_faq : strContains cssText ".faq-list" = true := by
  simp only [cssText]
  apply strContains_append_right
  apply strContains_append_right
  apply strContains_append_right
  apply strContains_append_right
  apply strContains_append_right
  apply strContains_append_right
  apply strContains_append_right
  apply strContains_append_right
  apply strContains_append_right
  apply strContains_append_right
  apply strContains_append_right
  apply strContains_append_right
  apply strContains_append_right
  apply strContains_append_left
  decide

theorem css_has_auditform : strContains cssText ".audit-form" = true := by
  simp only [cssText]
  apply strContains_append_right
  apply strContains_append_right
  apply strContains_append_right
  apply strContains_append_right
  apply strContains_append_right
  apply strContains_append_right
  apply strContains_append_right
  apply strContains_append_right
  apply strContains_append_right
  apply strContains_append_right
  apply strContains_append_right
  apply strContains_append_right
  apply strContains_append_right
  apply strContains_append_right
  apply strContains_append_right
  apply strContains_append_left
  decide

/-! ### The UTF-8 bytes of the README pieces at the fixed timestamp. -/

def uRA : List Nat := [35, 32, 68, 105, 103, 105, 116, 97, 108, 32, 67, 114, 101, 100, 105, 98, 105, 108, 105, 116, 121, 32, 83, 99, 111, 114, 101, 32, 65, 117, 100, 105, 116, 32, 226, 128, 148, 32, 73, 109, 112, 108, 101, 109, 101, 110, 116, 97, 116, 105, 111, 110, 32, 80, 97, 99, 107, 97, 103, 101, 10, 10, 42, 42, 86, 101, 114, 115, 105, 111, 110, 58, 42, 42, 32]
def uVer : List Nat := [49, 46, 48, 46, 48, 45, 101, 110, 116, 101, 114, 112, 114, 105, 115, 101]
def uRB : List Nat := [10, 42, 42, 80, 114, 111, 109, 112, 116, 67, 111, 114, 101, 32, 65, 108, 105, 103, 110, 109, 101, 110, 116, 58, 42, 42, 32]
def uPC : List Nat := [118, 51, 46, 55]
def uRC : List Nat := [10, 42, 42, 71, 101, 110, 101, 114, 97, 116, 101, 100, 58, 42, 42, 32]
def uNow : List Nat := [50, 48, 50, 54, 45, 48, 49, 45, 48, 49, 84, 48, 48, 58, 48, 48, 58, 48, 48, 43, 48, 48, 58, 48, 48]
def uD0 : List Nat := [10, 10, 35, 35, 32, 67, 111, 110, 116, 101, 110, 116, 115, 10, 10, 45, 32, 96, 115, 114, 99, 47, 112, 97, 103, 101, 115, 47, 100, 105, 103, 105, 116, 97, 108, 45, 99, 114, 101, 100, 105, 98, 105, 108, 105, 116, 121, 45, 115, 99, 111, 114, 101, 45, 97, 117, 100, 105, 116, 46, 97, 115, 116, 114, 111, 96, 32, 226, 128, 148, 32, 80, 97, 103, 101, 32, 99, 111, 109, 112, 111, 110, 101, 110, 116, 10, 45, 32, 96, 115, 116, 121, 108, 101, 115, 47, 97, 117, 100, 105, 116, 45, 115, 116, 121, 108, 101, 115, 46, 99, 115, 115, 96, 32, 226, 128, 148, 32, 67, 111, 109, 112, 111, 110, 101, 110, 116, 32, 115, 116, 121, 108, 101, 115, 10, 45, 32, 96, 112, 117, 98, 108, 105, 99, 47, 115, 99, 104, 101, 109, 97, 45, 97, 117, 100, 105, 116, 46, 106, 115, 111, 110, 96, 32, 226, 128, 148, 32, 74, 83, 79, 78, 45, 76, 68, 32, 115, 116, 114, 117, 99, 116, 117, 114, 101, 100, 32, 100, 97, 116, 97, 10, 45, 32, 96, 100, 111, 99, 115, 47, 100, 99, 115, 45, 102, 114, 97, 109, 101, 119, 111, 114, 107, 46, 109, 100, 96, 32, 226, 128, 148, 32, 70, 114, 97, 109, 101, 119, 111, 114, 107, 32, 100, 111, 99, 117, 109, 101, 110, 116, 97, 116, 105, 111, 110, 10, 45, 32]
def uD1 : List Nat := [96, 98, 117, 105, 108, 100, 45, 109, 97, 110, 105, 102, 101, 115, 116, 46, 106, 115, 111, 110, 96, 32, 226, 128, 148, 32, 82, 101, 112, 114, 111, 100, 117, 99, 105, 98, 105, 108, 105, 116, 121, 32, 109, 97, 110, 105, 102, 101, 115, 116, 32, 119, 105, 116, 104, 32, 99, 104, 101, 99, 107, 115, 117, 109, 115, 10, 10, 35, 35, 32, 73, 110, 116, 101, 103, 114, 97, 116, 105, 111, 110, 32, 83, 116, 101, 112, 115, 10, 10, 49, 46, 32, 67, 111, 112, 121, 32, 96, 100, 105, 103, 105, 116, 97, 108, 45, 99, 114, 101, 100, 105, 98, 105, 108, 105, 116, 121, 45, 115, 99, 111, 114, 101, 45, 97, 117, 100, 105, 116, 46, 97, 115, 116, 114, 111, 96, 32, 116, 111, 32, 96, 115, 114, 99, 47, 112, 97, 103, 101, 115, 47, 96, 10, 50, 46, 32, 73, 109, 112, 111, 114, 116, 32, 96, 97, 117, 100, 105, 116, 45, 115, 116, 121, 108, 101, 115, 46, 99, 115, 115, 96, 32, 105, 110, 32, 121, 111, 117, 114, 32, 103, 108, 111, 98, 97, 108, 32, 115, 116, 121, 108, 101, 115, 104, 101, 101, 116, 10, 51, 46, 32, 73, 110, 106, 101, 99, 116, 32, 96, 115, 99, 104, 101, 109, 97, 45, 97, 117, 100, 105, 116, 46, 106, 115, 111, 110, 96, 32, 118, 105, 97, 32]
def uD2 : List Nat := [98, 117, 105, 108, 100, 45, 116, 105, 109, 101, 32, 105, 109, 112, 111, 114, 116, 32, 111, 114, 32, 115, 99, 114, 105, 112, 116, 32, 116, 97, 103, 10, 52, 46, 32, 85, 112, 100, 97, 116, 101, 32, 104, 111, 109, 101, 112, 97, 103, 101, 32, 67, 84, 65, 115, 32, 116, 111, 32, 108, 105, 110, 107, 32, 116, 111, 32, 96, 47, 100, 105, 103, 105, 116, 97, 108, 45, 99, 114, 101, 100, 105, 98, 105, 108, 105, 116, 121, 45, 115, 99, 111, 114, 101, 45, 97, 117, 100, 105, 116, 96, 10, 53, 46, 32, 67, 111, 110, 102, 105, 103, 117, 114, 101, 32, 78, 101, 116, 108, 105, 102, 121, 32, 70, 111, 114, 109, 115, 32, 102, 111, 114, 32, 96, 100, 99, 115, 45, 97, 117, 100, 105, 116, 45, 114, 101, 113, 117, 101, 115, 116, 96, 32, 102, 111, 114, 109, 32, 110, 97, 109, 101, 10, 10, 35, 35, 32, 86, 101, 114, 105, 102, 105, 99, 97, 116, 105, 111, 110, 10, 10, 82, 117, 110, 32, 99, 104, 101, 99, 107, 115, 117, 109, 115, 32, 97, 103, 97, 105, 110, 115, 116, 32, 96, 98, 117, 105, 108, 100, 45, 109, 97, 110, 105, 102, 101, 115, 116, 46, 106, 115, 111, 110, 96, 32, 116, 111, 32, 118, 101, 114, 105, 102, 121, 32, 97, 114, 116, 105, 102]
def uD3 : List Nat := [97, 99, 116, 32, 105, 110, 116, 101, 103, 114, 105, 116, 121, 46, 10, 10, 35, 35, 32, 70, 111, 114, 109, 32, 67, 111, 110, 102, 105, 103, 117, 114, 97, 116, 105, 111, 110, 10, 10, 84, 104, 101, 32, 102, 111, 114, 109, 32, 105, 110, 99, 108, 117, 100, 101, 115, 32, 96, 100, 97, 116, 97, 45, 110, 101, 116, 108, 105, 102, 121, 61, 34, 116, 114, 117, 101, 34, 96, 32, 97, 110, 100, 32, 96, 110, 97, 109, 101, 61, 34, 100, 99, 115, 45, 97, 117, 100, 105, 116, 45, 114, 101, 113, 117, 101, 115, 116, 34, 96, 32, 102, 111, 114, 10, 97, 117, 116, 111, 109, 97, 116, 105, 99, 32, 78, 101, 116, 108, 105, 102, 121, 32, 70, 111, 114, 109, 115, 32, 105, 110, 116, 101, 103, 114, 97, 116, 105, 111, 110, 46, 32, 69, 110, 115, 117, 114, 101, 32, 78, 101, 116, 108, 105, 102, 121, 32, 70, 111, 114, 109, 115, 32, 105, 115, 32, 101, 110, 97, 98, 108, 101, 100, 32, 105, 110, 32, 121, 111, 117, 114, 10, 115, 105, 116, 101, 32, 115, 101, 116, 116, 105, 110, 103, 115, 46, 10]

theorem upRA : utf8Bytes readmeA = uRA := by decide
theorem upVer : utf8Bytes "1.0.0-enterprise" = uVer := by decide
theorem upRB : utf8Bytes readmeB = uRB := by decide
theorem upPC : utf8Bytes "v3.7" = uPC := by decide
theorem upRC : utf8Bytes readmeC = uRC := by decide
theorem upNow : utf8Bytes nowCex = uNow := by decide
theorem upD0 : utf8Bytes readmeD0 = uD0 := by decide
theorem upD1 : utf8Bytes readmeD1 = uD1 := by decide
theorem upD2 : utf8Bytes readmeD2 = uD2 := by decide
theorem upD3 : utf8Bytes readmeD3 = uD3 := by decide

theorem luRA : (uRA).length = 75 := by decide
theorem luVer : (uVer).length = 16 := by decide
theorem luRB : (uRB).length = 27 := by decide
theorem luPC : (uPC).length = 4 := by decide
theorem luRC : (uRC).length = 16 := by decide
theorem luNow : (uNow).length = 25 := by decide
theorem luD0 : (uD0).length = 248 := by decide
theorem luD1 : (uD1).length = 242 := by decide
theorem luD2 : (uD2).length = 240 := by decide
theorem luD3 : (uD3).length = 206 := by decide

/-- The README content at the fixed timestamp, as its UTF-8 pieces. -/
theorem readme_utf8_pieces : utf8Bytes (generate_readme cfgSig nowCex) = uRA ++ (uVer ++ (uRB ++ (uPC ++ (uRC ++ (uNow ++ (uD0 ++ (uD1 ++ (uD2 ++ (uD3))))))))) := by
  simp only [generate_readme, cfgSig, readmeD, utf8Bytes_append, List.append_assoc, upRA, upVer, upRB, upPC, upRC, upNow, upD0, upD1, upD2, upD3]

theorem readme_pieces_len : (uRA ++ (uVer ++ (uRB ++ (uPC ++ (uRC ++ (uNow ++ (uD0 ++ (uD1 ++ (uD2 ++ (uD3)))))))))).length = 1099 := by
  simp only [List.length_append, luRA, luVer, luRB, luPC, luRC, luNow, luD0, luD1, luD2, luD3]

def rmuBlk0 : List Nat := [35, 32, 68, 105, 103, 105, 116, 97, 108, 32, 67, 114, 101, 100, 105, 98, 105, 108, 105, 116, 121, 32, 83, 99, 111, 114, 101, 32, 65, 117, 100, 105, 116, 32, 226, 128, 148, 32, 73, 109, 112, 108, 101, 109, 101, 110, 116, 97, 116, 105, 111, 110, 32, 80, 97, 99, 107, 97, 103, 101, 10, 10, 42, 42]
def rmuBlk1 : List Nat := [86, 101, 114, 115, 105, 111, 110, 58, 42, 42, 32, 49, 46, 48, 46, 48, 45, 101, 110, 116, 101, 114, 112, 114, 105, 115, 101, 10, 42, 42, 80, 114, 111, 109, 112, 116, 67, 111, 114, 101, 32, 65, 108, 105, 103, 110, 109, 101, 110, 116, 58, 42, 42, 32, 118, 51, 46, 55, 10, 42, 42, 71, 101, 110]
def rmuBlk2 : List Nat := [101, 114, 97, 116, 101, 100, 58, 42, 42, 32, 50, 48, 50, 54, 45, 48, 49, 45, 48, 49, 84, 48, 48, 58, 48, 48, 58, 48, 48, 43, 48, 48, 58, 48, 48, 10, 10, 35, 35, 32, 67, 111, 110, 116, 101, 110, 116, 115, 10, 10, 45, 32, 96, 115, 114, 99, 47, 112, 97, 103, 101, 115, 47, 100]
def rmuBlk3 : List Nat := [105, 103, 105, 116, 97, 108, 45, 99, 114, 101, 100, 105, 98, 105, 108, 105, 116, 121, 45, 115, 99, 111, 114, 101, 45, 97, 117, 100, 105, 116, 46, 97, 115, 116, 114, 111, 96, 32, 226, 128, 148, 32, 80, 97, 103, 101, 32, 99, 111, 109, 112, 111, 110, 101, 110, 116, 10, 45, 32, 96, 115, 116, 121, 108]
def rmuBlk4 : List Nat := [101, 115, 47, 97, 117, 100, 105, 116, 45, 115, 116, 121, 108, 101, 115, 46, 99, 115, 115, 96, 32, 226, 128, 148, 32, 67, 111, 109, 112, 111, 110, 101, 110, 116, 32, 115, 116, 121, 108, 101, 115, 10, 45, 32, 96, 112, 117, 98, 108, 105, 99, 47, 115, 99, 104, 101, 109, 97, 45, 97, 117, 100, 105, 116]
def rmuBlk5 : List Nat := [46, 106, 115, 111, 110, 96, 32, 226, 128, 148, 32, 74, 83, 79, 78, 45, 76, 68, 32, 115, 116, 114, 117, 99, 116, 117, 114, 101, 100, 32, 100, 97, 116, 97, 10, 45, 32, 96, 100, 111, 99, 115, 47, 100, 99, 115, 45, 102, 114, 97, 109, 101, 119, 111, 114, 107, 46, 109, 100, 96, 32, 226, 128, 148]
def rmuBlk6 : List Nat := [32, 70, 114, 97, 109, 101, 119, 111, 114, 107, 32, 100, 111, 99, 117, 109, 101, 110, 116, 97, 116, 105, 111, 110, 10, 45, 32, 96, 98, 117, 105, 108, 100, 45, 109, 97, 110, 105, 102, 101, 115, 116, 46, 106, 115, 111, 110, 96, 32, 226, 128, 148, 32, 82, 101, 112, 114, 111, 100, 117, 99, 105, 98, 105]
def rmuBlk7 : List Nat := [108, 105, 116, 121, 32, 109, 97, 110, 105, 102, 101, 115, 116, 32, 119, 105, 116, 104, 32, 99, 104, 101, 99, 107, 115, 117, 109, 115, 10, 10, 35, 35, 32, 73, 110, 116, 101, 103, 114, 97, 116, 105, 111, 110, 32, 83, 116, 101, 112, 115, 10, 10, 49, 46, 32, 67, 111, 112, 121, 32, 96, 100, 105, 103]
def rmuBlk8 : List Nat := [105, 116, 97, 108, 45, 99, 114, 101, 100, 105, 98, 105, 108, 105, 116, 121, 45, 115, 99, 111, 114, 101, 45, 97, 117, 100, 105, 116, 46, 97, 115, 116, 114, 111, 96, 32, 116, 111, 32, 96, 115, 114, 99, 47, 112, 97, 103, 101, 115, 47, 96, 10, 50, 46, 32, 73, 109, 112, 111, 114, 116, 32, 96, 97]
def rmuBlk9 : List Nat := [117, 100, 105, 116, 45, 115, 116, 121, 108, 101, 115, 46, 99, 115, 115, 96, 32, 105, 110, 32, 121, 111, 117, 114, 32, 103, 108, 111, 98, 97, 108, 32, 115, 116, 121, 108, 101, 115, 104, 101, 101, 116, 10, 51, 46, 32, 73, 110, 106, 101, 99, 116, 32, 96, 115, 99, 104, 101, 109, 97, 45, 97, 117, 100]
def rmuBlk10 : List Nat := [105, 116, 46, 106, 115, 111, 110, 96, 32, 118, 105, 97, 32, 98, 117, 105, 108, 100, 45, 116, 105, 109, 101, 32, 105, 109, 112, 111, 114, 116, 32, 111, 114, 32, 115, 99, 114, 105, 112, 116, 32, 116, 97, 103, 10, 52, 46, 32, 85, 112, 100, 97, 116, 101, 32, 104, 111, 109, 101, 112, 97, 103, 101, 32]
def rmuBlk11 : List Nat := [67, 84, 65, 115, 32, 116, 111, 32, 108, 105, 110, 107, 32, 116, 111, 32, 96, 47, 100, 105, 103, 105, 116, 97, 108, 45, 99, 114, 101, 100, 105, 98, 105, 108, 105, 116, 121, 45, 115, 99, 111, 114, 101, 45, 97, 117, 100, 105, 116, 96, 10, 53, 46, 32, 67, 111, 110, 102, 105, 103, 117, 114, 101, 32]
def rmuBlk12 : List Nat := [78, 101, 116, 108, 105, 102, 121, 32, 70, 111, 114, 109, 115, 32, 102, 111, 114, 32, 96, 100, 99, 115, 45, 97, 117, 100, 105, 116, 45, 114, 101, 113, 117, 101, 115, 116, 96, 32, 102, 111, 114, 109, 32, 110, 97, 109, 101, 10, 10, 35, 35, 32, 86, 101, 114, 105, 102, 105, 99, 97, 116, 105, 111, 110]
def rmuBlk13 : List Nat := [10, 10, 82, 117, 110, 32, 99, 104, 101, 99, 107, 115, 117, 109, 115, 32, 97, 103, 97, 105, 110, 115, 116, 32, 96, 98, 117, 105, 108, 100, 45, 109, 97, 110, 105, 102, 101, 115, 116, 46, 106, 115, 111, 110, 96, 32, 116, 111, 32, 118, 101, 114, 105, 102, 121, 32, 97, 114, 116, 105, 102, 97, 99, 116]
def rmuBlk14 : List Nat := [32, 105, 110, 116, 101, 103, 114, 105, 116, 121, 46, 10, 10, 35, 35, 32, 70, 111, 114, 109, 32, 67, 111, 110, 102, 105, 103, 117, 114, 97, 116, 105, 111, 110, 10, 10, 84, 104, 101, 32, 102, 111, 114, 109, 32, 105, 110, 99, 108, 117, 100, 101, 115, 32, 96, 100, 97, 116, 97, 45, 110, 101, 116, 108]
def rmuBlk15 : List Nat := [105, 102, 121, 61, 34, 116, 114, 117, 101, 34, 96, 32, 97, 110, 100, 32, 96, 110, 97, 109, 101, 61, 34, 100, 99, 115, 45, 97, 117, 100, 105, 116, 45, 114, 101, 113, 117, 101, 115, 116, 34, 96, 32, 102, 111, 114, 10, 97, 117, 116, 111, 109, 97, 116, 105, 99, 32, 78, 101, 116, 108, 105, 102, 121]
def rmuBlk16 : List Nat := [32, 70, 111, 114, 109, 115, 32, 105, 110, 116, 101, 103, 114, 97, 116, 105, 111, 110, 46, 32, 69, 110, 115, 117, 114, 101, 32, 78, 101, 116, 108, 105, 102, 121, 32, 70, 111, 114, 109, 115, 32, 105, 115, 32, 101, 110, 97, 98, 108, 101, 100, 32, 105, 110, 32, 121, 111, 117, 114, 10, 115, 105, 116, 101]
def rmuBlk17 : List Nat := [32, 115, 101, 116, 116, 105, 110, 103, 115, 46, 10, 128, 0, 0, 0, 0, 0, 0, 0, 0, 0, 0, 0, 0, 0, 0, 0, 0, 0, 0, 0, 0, 0, 0, 0, 0, 0, 0, 0, 0, 0, 0, 0, 0, 0, 0, 0, 0, 0, 0, 0, 0, 0, 0, 0, 0, 0, 0, 0, 0, 0, 0, 34, 88]

def rmsBlk0 : List Nat := [239, 187, 191, 35, 32, 68, 105, 103, 105, 116, 97, 108, 32, 67, 114, 101, 100, 105, 98, 105, 108, 105, 116, 121, 32, 83, 99, 111, 114, 101, 32, 65, 117, 100, 105, 116, 32, 226, 128, 148, 32, 73, 109, 112, 108, 101, 109, 101, 110, 116, 97, 116, 105, 111, 110, 32, 80, 97, 99, 107, 97, 103, 101, 10]
def rmsBlk1 : List Nat := [10, 42, 42, 86, 101, 114, 115, 105, 111, 110, 58, 42, 42, 32, 49, 46, 48, 46, 48, 45, 101, 110, 116, 101, 114, 112, 114, 105, 115, 101, 10, 42, 42, 80, 114, 111, 109, 112, 116, 67, 111, 114, 101, 32, 65, 108, 105, 103, 110, 109, 101, 110, 116, 58, 42, 42, 32, 118, 51, 46, 55, 10, 42, 42]
def rmsBlk2 : List Nat := [71, 101, 110, 101, 114, 97, 116, 101, 100, 58, 42, 42, 32, 50, 48, 50, 54, 45, 48, 49, 45, 48, 49, 84, 48, 48, 58, 48, 48, 58, 48, 48, 43, 48, 48, 58, 48, 48, 10, 10, 35, 35, 32, 67, 111, 110, 116, 101, 110, 116, 115, 10, 10, 45, 32, 96, 115, 114, 99, 47, 112, 97, 103, 101]
def rmsBlk3 : List Nat := [115, 47, 100, 105, 103, 105, 116, 97, 108, 45, 99, 114, 101, 100, 105, 98, 105, 108, 105, 116, 121, 45, 115, 99, 111, 114, 101, 45, 97, 117, 100, 105, 116, 46, 97, 115, 116, 114, 111, 96, 32, 226, 128, 148, 32, 80, 97, 103, 101, 32, 99, 111, 109, 112, 111, 110, 101, 110, 116, 10, 45, 32, 96, 115]
def rmsBlk4 : List Nat := [116, 121, 108, 101, 115, 47, 97, 117, 100, 105, 116, 45, 115, 116, 121, 108, 101, 115, 46, 99, 115, 115, 96, 32, 226, 128, 148, 32, 67, 111, 109, 112, 111, 110, 101, 110, 116, 32, 115, 116, 121, 108, 101, 115, 10, 45, 32, 96, 112, 117, 98, 108, 105, 99, 47, 115, 99, 104, 101, 109, 97, 45, 97, 117]
def rmsBlk5 : List Nat := [100, 105, 116, 46, 106, 115, 111, 110, 96, 32, 226, 128, 148, 32, 74, 83, 79, 78, 45, 76, 68, 32, 115, 116, 114, 117, 99, 116, 117, 114, 101, 100, 32, 100, 97, 116, 97, 10, 45, 32, 96, 100, 111, 99, 115, 47, 100, 99, 115, 45, 102, 114, 97, 109, 101, 119, 111, 114, 107, 46, 109, 100, 96, 32]
def rmsBlk6 : List Nat := [226, 128, 148, 32, 70, 114, 97, 109, 101, 119, 111, 114, 107, 32, 100, 111, 99, 117, 109, 101, 110, 116, 97, 116, 105, 111, 110, 10, 45, 32, 96, 98, 117, 105, 108, 100, 45, 109, 97, 110, 105, 102, 101, 115, 116, 46, 106, 115, 111, 110, 96, 32, 226, 128, 148, 32, 82, 101, 112, 114, 111, 100, 117, 99]
def rmsBlk7 : List Nat := [105, 98, 105, 108, 105, 116, 121, 32, 109, 97, 110, 105, 102, 101, 115, 116, 32, 119, 105, 116, 104, 32, 99, 104, 101, 99, 107, 115, 117, 109, 115, 10, 10, 35, 35, 32, 73, 110, 116, 101, 103, 114, 97, 116, 105, 111, 110, 32, 83, 116, 101, 112, 115, 10, 10, 49, 46, 32, 67, 111, 112, 121, 32, 96]
def rmsBlk8 : List Nat := [100, 105, 103, 105, 116, 97, 108, 45, 99, 114, 101, 100, 105, 98, 105, 108, 105, 116, 121, 45, 115, 99, 111, 114, 101, 45, 97, 117, 100, 105, 116, 46, 97, 115, 116, 114, 111, 96, 32, 116, 111, 32, 96, 115, 114, 99, 47, 112, 97, 103, 101, 115, 47, 96, 10, 50, 46, 32, 73, 109, 112, 111, 114, 116]
def rmsBlk9 : List Nat := [32, 96, 97, 117, 100, 105, 116, 45, 115, 116, 121, 108, 101, 115, 46, 99, 115, 115, 96, 32, 105, 110, 32, 121, 111, 117, 114, 32, 103, 108, 111, 98, 97, 108, 32, 115, 116, 121, 108, 101, 115, 104, 101, 101, 116, 10, 51, 46, 32, 73, 110, 106, 101, 99, 116, 32, 96, 115, 99, 104, 101, 109, 97, 45]
def rmsBlk10 : List Nat := [97, 117, 100, 105, 116, 46, 106, 115, 111, 110, 96, 32, 118, 105, 97, 32, 98, 117, 105, 108, 100, 45, 116, 105, 109, 101, 32, 105, 109, 112, 111, 114, 116, 32, 111, 114, 32, 115, 99, 114, 105, 112, 116, 32, 116, 97, 103, 10, 52, 46, 32, 85, 112, 100, 97, 116, 101, 32, 104, 111, 109, 101, 112, 97]
def rmsBlk11 : List Nat := [103, 101, 32, 67, 84, 65, 115, 32, 116, 111, 32, 108, 105, 110, 107, 32, 116, 111, 32, 96, 47, 100, 105, 103, 105, 116, 97, 108, 45, 99, 114, 101, 100, 105, 98, 105, 108, 105, 116, 121, 45, 115, 99, 111, 114, 101, 45, 97, 117, 100, 105, 116, 96, 10, 53, 46, 32, 67, 111, 110, 102, 105, 103, 117]
def rmsBlk12 : List Nat := [114, 101, 32, 78, 101, 116, 108, 105, 102, 121, 32, 70, 111, 114, 109, 115, 32, 102, 111, 114, 32, 96, 100, 99, 115, 45, 97, 117, 100, 105, 116, 45, 114, 101, 113, 117, 101, 115, 116, 96, 32, 102, 111, 114, 109, 32, 110, 97, 109, 101, 10, 10, 35, 35, 32, 86, 101, 114, 105, 102, 105, 99, 97, 116]
def rmsBlk13 : List Nat := [105, 111, 110, 10, 10, 82, 117, 110, 32, 99, 104, 101, 99, 107, 115, 117, 109, 115, 32, 97, 103, 97, 105, 110, 115, 116, 32, 96, 98, 117, 105, 108, 100, 45, 109, 97, 110, 105, 102, 101, 115, 116, 46, 106, 115, 111, 110, 96, 32, 116, 111, 32, 118, 101, 114, 105, 102, 121, 32, 97, 114, 116, 105, 102]
def rmsBlk14 : List Nat := [97, 99, 116, 32, 105, 110, 116, 101, 103, 114, 105, 116, 121, 46, 10, 10, 35, 35, 32, 70, 111, 114, 109, 32, 67, 111, 110, 102, 105, 103, 117, 114, 97, 116, 105, 111, 110, 10, 10, 84, 104, 101, 32, 102, 111, 114, 109, 32, 105, 110, 99, 108, 117, 100, 101, 115, 32, 96, 100, 97, 116, 97, 45, 110]
def rmsBlk15 : List Nat := [101, 116, 108, 105, 102, 121, 61, 34, 116, 114, 117, 101, 34, 96, 32, 97, 110, 100, 32, 96, 110, 97, 109, 101, 61, 34, 100, 99, 115, 45, 97, 117, 100, 105, 116, 45, 114, 101, 113, 117, 101, 115, 116, 34, 96, 32, 102, 111, 114, 10, 97, 117, 116, 111, 109, 97, 116, 105, 99, 32, 78, 101, 116, 108]
def rmsBlk16 : List Nat := [105, 102, 121, 32, 70, 111, 114, 109, 115, 32, 105, 110, 116, 101, 103, 114, 97, 116, 105, 111, 110, 46, 32, 69, 110, 115, 117, 114, 101, 32, 78, 101, 116, 108, 105, 102, 121, 32, 70, 111, 114, 109, 115, 32, 105, 115, 32, 101, 110, 97, 98, 108, 101, 100, 32, 105, 110, 32, 121, 111, 117, 114, 10, 115]
def rmsBlk17 : List Nat := [105, 116, 101, 32, 115, 101, 116, 116, 105, 110, 103, 115, 46, 10, 128, 0, 0, 0, 0, 0, 0, 0, 0, 0, 0, 0, 0, 0, 0, 0, 0, 0, 0, 0, 0, 0, 0, 0, 0, 0, 0, 0, 0, 0, 0, 0, 0, 0, 0, 0, 0, 0, 0, 0, 0, 0, 0, 0, 0, 0, 0, 0, 34, 112]

def stU1 : Hash8 := ⟨2348441096, 3930493707, 4160501552, 1816306620, 3082857786, 2332169756, 2543496827, 4024014579⟩
def stU2 : Hash8 := ⟨335379134, 2756166028, 2096076523, 293613561, 541012905, 4181085533, 3727867891, 782804203⟩
def stU3 : Hash8 := ⟨3522226425, 1713175302, 749117578, 4190523866, 2537675907, 3163143189, 680016225, 1503875973⟩
def stU4 : Hash8 := ⟨4288986145, 3761002514, 247366408, 721875922, 3280906749, 396975359, 3548700966, 3134586890⟩
def stU5 : Hash8 := ⟨1727054520, 4010770482, 901562304, 3384312977, 2475324163, 2067697634, 2406547720, 3508309172⟩
def stU6 : Hash8 := ⟨1353071909, 737930058, 3039449366, 3728341579, 2364758699, 2456439722, 1340622499, 1099845865⟩
def stU7 : Hash8 := ⟨2812841534, 333786829, 2471001060, 1000707784, 3384195978, 352812177, 795185008, 3360119123⟩
def stU8 : Hash8 := ⟨128008149, 638827696, 2725125170, 1900742929, 4261407731, 246969473, 2264252167, 2588420196⟩
def stU9 : Hash8 := ⟨1799562813, 2884762548, 3856814225, 4081935951, 159026449, 2486432638, 3204277604, 3960248394⟩
def stU10 : Hash8 := ⟨1472494407, 3411198799, 3306711559, 3729164216, 405561060, 2225421593, 914705805, 3593372827⟩
def stU11 : Hash8 := ⟨1202300531, 318852269, 3105718005, 797694813, 2376320495, 893475194, 3199422458, 961185416⟩
def stU12 : Hash8 := ⟨3605854674, 3371060641, 3065134182, 1136354929, 2443441951, 2790778260, 781924666, 447426865⟩
def stU13 : Hash8 := ⟨625449146, 733001957, 178082470, 258595245, 2416739893, 1914265317, 4208472678, 3727158713⟩
def stU14 : Hash8 := ⟨3084843229, 4053060027, 184264613, 3468507185, 2344132625, 780057133, 2210605875, 1837778214⟩
def stU15 : Hash8 := ⟨919960858, 3243285988, 3300887963, 3770989437, 2231855375, 2603355120, 2459824898, 2475638496⟩
def stU16 : Hash8 := ⟨788017462, 1116112809, 4082034566, 4044196645, 3427121222, 391423952, 1173679388, 3242900267⟩
def stU17 : Hash8 := ⟨3776528776, 711909119, 846200358, 1402872489, 3661627058, 2319641390, 1288754890, 1771175256⟩
def stU18 : Hash8 := ⟨922617487, 3255343589, 1840179914, 255878423, 2242235124, 3791300850, 314235935, 290950022⟩

def stS1 : Hash8 := ⟨3662103439, 1383977182, 1425966647, 3559637556, 2992761302, 3444642357, 510052327, 1661771372⟩
def stS2 : Hash8 := ⟨1107062757, 285196527, 2209731807, 698611940, 3908836223, 786205768, 2447378903, 3070535751⟩
def stS3 : Hash8 := ⟨1134850021, 4134190123, 714516176, 193160523, 3678938253, 1516925420, 3291845394, 841498542⟩
def stS4 : Hash8 := ⟨178591655, 1596449410, 73422376, 4155365278, 794216643, 2946755062, 402850171, 1945651498⟩
def stS5 : Hash8 := ⟨31204981, 1745335996, 1295405576, 2807154437, 922637836, 3896911440, 3914222966, 222521544⟩
def stS6 : Hash8 := ⟨1271186628, 3423903363, 1310013657, 3121536211, 1586230203, 2332658566, 2222701910, 4163927270⟩
def stS7 : Hash8 := ⟨474048866, 1227841953, 4181829331, 791601303, 2551847799, 437744467, 1363482547, 3303887714⟩
def stS8 : Hash8 := ⟨3648842521, 3572245771, 2217818943, 3068166656, 2775459566, 3486833482, 3338663569, 2872376101⟩
def stS9 : Hash8 := ⟨1040944164, 2954644328, 4090445655, 38923365, 452743547, 4058933379, 3680589315, 1279205246⟩
def stS10 : Hash8 := ⟨2665610547, 3245563733, 2845597072, 586538531, 4070553839, 1563997694, 4168300037, 1936286542⟩
def stS11 : Hash8 := ⟨13746961, 544113988, 2061980327, 852858035, 3374666340, 90891101, 1122995633, 502473391⟩
def stS12 : Hash8 := ⟨1841750732, 719444228, 671729887, 4118308174, 1552112897, 3831944842, 1669742152, 1748935323⟩
def stS13 : Hash8 := ⟨2002151063, 42400130, 2804688260, 395735366, 2604940178, 2939654904, 634527755, 4095356471⟩
def stS14 : Hash8 := ⟨83885545, 145644295, 2129611842, 1676481325, 1942174337, 2513287248, 3646265706, 1981672197⟩
def stS15 : Hash8 := ⟨4236815153, 362335247, 992989899, 1506974524, 1376914097, 2374512178, 3832587523, 2428079430⟩
def stS16 : Hash8 := ⟨2083265109, 839327463, 2285084818, 1034202828, 2582723077, 2161890457, 4284902100, 1879298195⟩
def stS17 : Hash8 := ⟨422211803, 3533270786, 3797483651, 373726490, 3714782434, 2357690143, 3892546800, 4228016435⟩
def stS18 : Hash8 := ⟨870948415, 826317379, 1427409335, 1985322097, 2706407680, 3853081166, 856972372, 3062571097⟩

def sfxU : List Nat := [128, 0, 0, 0, 0, 0, 0, 0, 0, 0, 0, 0, 0, 0, 0, 0, 0, 0, 0, 0, 0, 0, 0, 0, 0, 0, 0, 0, 0, 0, 0, 0, 0, 0, 0, 0, 0, 0, 0, 0, 0, 0, 0, 0, 0, 0, 0, 0, 0, 0, 0, 34, 88]
def sfxS : List Nat := [128, 0, 0, 0, 0, 0, 0, 0, 0, 0, 0, 0, 0, 0, 0, 0, 0, 0, 0, 0, 0, 0, 0, 0, 0, 0, 0, 0, 0, 0, 0, 0, 0, 0, 0, 0, 0, 0, 0, 0, 0, 0, 0, 0, 0, 0, 0, 0, 34, 112]

def cU1 : List Nat := [86, 101, 114, 115, 105, 111, 110, 58, 42, 42, 32]
def cU2 : List Nat := [86, 101, 114, 115, 105, 111, 110, 58, 42, 42, 32, 49, 46, 48, 46, 48, 45, 101, 110, 116, 101, 114, 112, 114, 105, 115, 101]
def cU3 : List Nat := [86, 101, 114, 115, 105, 111, 110, 58, 42, 42, 32, 49, 46, 48, 46, 48, 45, 101, 110, 116, 101, 114, 112, 114, 105, 115, 101, 10, 42, 42, 80, 114, 111, 109, 112, 116, 67, 111, 114, 101, 32, 65, 108, 105, 103, 110, 109, 101, 110, 116, 58, 42, 42, 32]
def cU4 : List Nat := [86, 101, 114, 115, 105, 111, 110, 58, 42, 42, 32, 49, 46, 48, 46, 48, 45, 101, 110, 116, 101, 114, 112, 114, 105, 115, 101, 10, 42, 42, 80, 114, 111, 109, 112, 116, 67, 111, 114, 101, 32, 65, 108, 105, 103, 110, 109, 101, 110, 116, 58, 42, 42, 32, 118, 51, 46, 55]
def cU5 : List Nat := [101, 114, 97, 116, 101, 100, 58, 42, 42, 32]
def cU6 : List Nat := [101, 114, 97, 116, 101, 100, 58, 42, 42, 32, 50, 48, 50, 54, 45, 48, 49, 45, 48, 49, 84, 48, 48, 58, 48, 48, 58, 48, 48, 43, 48, 48, 58, 48, 48]
def cU7 : List Nat := [32, 70, 114, 97, 109, 101, 119, 111, 114, 107, 32, 100, 111, 99, 117, 109, 101, 110, 116, 97, 116, 105, 111, 110, 10, 45, 32]
def cU8 : List Nat := [105, 116, 46, 106, 115, 111, 110, 96, 32, 118, 105, 97, 32]
def cU9 : List Nat := [10, 10, 82, 117, 110, 32, 99, 104, 101, 99, 107, 115, 117, 109, 115, 32, 97, 103, 97, 105, 110, 115, 116, 32, 96, 98, 117, 105, 108, 100, 45, 109, 97, 110, 105, 102, 101, 115, 116, 46, 106, 115, 111, 110, 96, 32, 116, 111, 32, 118, 101, 114, 105, 102, 121, 32, 97, 114, 116, 105, 102]
def cU10 : List Nat := [32, 115, 101, 116, 116, 105, 110, 103, 115, 46, 10]
def cS1 : List Nat := [10, 42, 42, 86, 101, 114, 115, 105, 111, 110, 58, 42, 42, 32]
def cS2 : List Nat := [10, 42, 42, 86, 101, 114, 115, 105, 111, 110, 58, 42, 42, 32, 49, 46, 48, 46, 48, 45, 101, 110, 116, 101, 114, 112, 114, 105, 115, 101]
def cS3 : List Nat := [10, 42, 42, 86, 101, 114, 115, 105, 111, 110, 58, 42, 42, 32, 49, 46, 48, 46, 48, 45, 101, 110, 116, 101, 114, 112, 114, 105, 115, 101, 10, 42, 42, 80, 114, 111, 109, 112, 116, 67, 111, 114, 101, 32, 65, 108, 105, 103, 110, 109, 101, 110, 116, 58, 42, 42, 32]
def cS4 : List Nat := [10, 42, 42, 86, 101, 114, 115, 105, 111, 110, 58, 42, 42, 32, 49, 46, 48, 46, 48, 45, 101, 110, 116, 101, 114, 112, 114, 105, 115, 101, 10, 42, 42, 80, 114, 111, 109, 112, 116, 67, 111, 114, 101, 32, 65, 108, 105, 103, 110, 109, 101, 110, 116, 58, 42, 42, 32, 118, 51, 46, 55]
def cS5 : List Nat := [71, 101, 110, 101, 114, 97, 116, 101, 100, 58, 42, 42, 32]
def cS6 : List Nat := [71, 101, 110, 101, 114, 97, 116, 101, 100, 58, 42, 42, 32, 50, 48, 50, 54, 45, 48, 49, 45, 48, 49, 84, 48, 48, 58, 48, 48, 58, 48, 48, 43, 48, 48, 58, 48, 48]
def cS7 : List Nat := [226, 128, 148, 32, 70, 114, 97, 109, 101, 119, 111, 114, 107, 32, 100, 111, 99, 117, 109, 101, 110, 116, 97, 116, 105, 111, 110, 10, 45, 32]
def cS8 : List Nat := [97, 117, 100, 105, 116, 46, 106, 115, 111, 110, 96, 32, 118, 105, 97, 32]
def cS9 : List Nat := [105, 116, 101, 32, 115, 101, 116, 116, 105, 110, 103, 115, 46, 10]

/-- The padded UTF-8 README stream, regrouped into its SHA-256 blocks. -/
theorem rmu_padded : pad (utf8Bytes (generate_readme cfgSig nowCex)) = rmuBlk0 ++ (rmuBlk1 ++ (rmuBlk2 ++ (rmuBlk3 ++ (rmuBlk4 ++ (rmuBlk5 ++ (rmuBlk6 ++ (rmuBlk7 ++ (rmuBlk8 ++ (rmuBlk9 ++ (rmuBlk10 ++ (rmuBlk11 ++ (rmuBlk12 ++ (rmuBlk13 ++ (rmuBlk14 ++ (rmuBlk15 ++ (rmuBlk16 ++ (rmuBlk17))))))))))))))))) := by
  rw [readme_utf8_pieces]
  unfold pad
  rw [readme_pieces_len]
  rw [(show (128 :: (List.replicate ((119 - 1099 % 64) % 64) 0 ++ lenBE (8 * 1099))) = sfxU by decide)]
  simp only [List.append_assoc]
  have hmcU0 : uRA = rmuBlk0 ++ (cU1) := by decide
  rw [hmcU0]
  simp only [List.append_assoc]
  have hmcU1 : cU1 ++ uVer = cU2 := by decide
  rw [append_regroup hmcU1]
  have hmcU2 : cU2 ++ uRB = cU3 := by decide
  rw [append_regroup hmcU2]
  have hmcU3 : cU3 ++ uPC = cU4 := by decide
  rw [append_regroup hmcU3]
  have hmcU4 : cU4 ++ uRC = rmuBlk1 ++ (cU5) := by decide
  rw [append_regroup hmcU4]
  simp only [List.append_assoc]
  have hmcU5 : cU5 ++ uNow = cU6 := by decide
  rw [append_regroup hmcU5]
  have hmcU6 : cU6 ++ uD0 = rmuBlk2 ++ (rmuBlk3 ++ (rmuBlk4 ++ (rmuBlk5 ++ (cU7)))) := by decide
  rw [append_regroup hmcU6]
  simp only [List.append_assoc]
  have hmcU7 : cU7 ++ uD1 = rmuBlk6 ++ (rmuBlk7 ++ (rmuBlk8 ++ (rmuBlk9 ++ (cU8)))) := by decide
  rw [append_regroup hmcU7]
  simp only [List.append_assoc]
  have hmcU8 : cU8 ++ uD2 = rmuBlk10 ++ (rmuBlk11 ++ (rmuBlk12 ++ (cU9))) := by decide
  rw [append_regroup hmcU8]
  simp only [List.append_assoc]
  have hmcU9 : cU9 ++ uD3 = rmuBlk13 ++ (rmuBlk14 ++ (rmuBlk15 ++ (rmuBlk16 ++ (cU10)))) := by decide
  rw [append_regroup hmcU9]
  simp only [List.append_assoc]
  have hmcU10 : cU10 ++ sfxU = rmuBlk17 := by decide
  rw [hmcU10]

theorem readme_sig_len : ((239 : Nat) :: 187 :: 191 :: (uRA ++ (uVer ++ (uRB ++ (uPC ++ (uRC ++ (uNow ++ (uD0 ++ (uD1 ++ (uD2 ++ (uD3))))))))))).length = 1102 := by
  simp only [List.length_cons, List.length_append, luRA, luVer, luRB, luPC, luRC, luNow, luD0, luD1, luD2, luD3]

/-- The padded utf-8-sig README stream (byte order mark first),
regrouped into its SHA-256 blocks. -/
theorem rms_padded : pad (encodeBytes "utf-8-sig" (generate_readme cfgSig nowCex)) = rmsBlk0 ++ (rmsBlk1 ++ (rmsBlk2 ++ (rmsBlk3 ++ (rmsBlk4 ++ (rmsBlk5 ++ (rmsBlk6 ++ (rmsBlk7 ++ (rmsBlk8 ++ (rmsBlk9 ++ (rmsBlk10 ++ (rmsBlk11 ++ (rmsBlk12 ++ (rmsBlk13 ++ (rmsBlk14 ++ (rmsBlk15 ++ (rmsBlk16 ++ (rmsBlk17))))))))))))))))) := by
  rw [encodeBytes_sig, readme_utf8_pieces]
  unfold pad
  rw [readme_sig_len]
  rw [(show (128 :: (List.replicate ((119 - 1102 % 64) % 64) 0 ++ lenBE (8 * 1102))) = sfxS by decide)]
  simp only [List.cons_append, List.append_assoc]
  have hmcS0 : (239 : Nat) :: 187 :: 191 :: uRA = rmsBlk0 ++ (cS1) := by decide
  rw [cons3_regroup hmcS0]
  simp only [List.append_assoc]
  have hmcS1 : cS1 ++ uVer = cS2 := by decide
  rw [append_regroup hmcS1]
  have hmcS2 : cS2 ++ uRB = cS3 := by decide
  rw [append_regroup hmcS2]
  have hmcS3 : cS3 ++ uPC = cS4 := by decide
  rw [append_regroup hmcS3]
  have hmcS4 : cS4 ++ uRC = rmsBlk1 ++ (cS5) := by decide
  rw [append_regroup hmcS4]
  simp only [List.append_assoc]
  have hmcS5 : cS5 ++ uNow = cS6 := by decide
  rw [append_regroup hmcS5]
  have hmcS6 : cS6 ++ uD0 = rmsBlk2 ++ (rmsBlk3 ++ (rmsBlk4 ++ (rmsBlk5 ++ (cS7)))) := by decide
  rw [append_regroup hmcS6]
  simp only [List.append_assoc]
  have hmcS7 : cS7 ++ uD1 = rmsBlk6 ++ (rmsBlk7 ++ (rmsBlk8 ++ (rmsBlk9 ++ (cS8)))) := by decide
  rw [append_regroup hmcS7]
  simp only [List.append_assoc]
  have hmcS8 : cS8 ++ uD2 = rmsBlk10 ++ (rmsBlk11 ++ (rmsBlk12 ++ (rmsBlk13))) := by decide
  rw [append_regroup hmcS8]
  simp only [List.append_assoc]
  have hmcS9 : uD3 = rmsBlk14 ++ (rmsBlk15 ++ (rmsBlk16 ++ (cS9))) := by decide
  rw [hmcS9]
  simp only [List.append_assoc]
  have hmcS10 : cS9 ++ sfxS = rmsBlk17 := by decide
  rw [hmcS10]

/-- The recorded README checksum: SHA-256 over the UTF-8 bytes. -/
theorem readme_checksum_utf8 : compute_checksum (generate_readme cfgSig nowCex) = "36fe068fc20899e56daeeaca0f40651785a5caf4e1faa8f212badc1f11578b86" := by
  simp only [compute_checksum, sha256hex]
  rw [rmu_padded]
  rw [toBlocks_cons64 rmuBlk0 _ (by decide)]
  rw [toBlocks_cons64 rmuBlk1 _ (by decide)]
  rw [toBlocks_cons64 rmuBlk2 _ (by decide)]
  rw [toBlocks_cons64 rmuBlk3 _ (by decide)]
  rw [toBlocks_cons64 rmuBlk4 _ (by decide)]
  rw [toBlocks_cons64 rmuBlk5 _ (by decide)]
  rw [toBlocks_cons64 rmuBlk6 _ (by decide)]
  rw [toBlocks_cons64 rmuBlk7 _ (by decide)]
  rw [toBlocks_cons64 rmuBlk8 _ (by decide)]
  rw [toBlocks_cons64 rmuBlk9 _ (by decide)]
  rw [toBlocks_cons64 rmuBlk10 _ (by decide)]
  rw [toBlocks_cons64 rmuBlk11 _ (by decide)]
  rw [toBlocks_cons64 rmuBlk12 _ (by decide)]
  rw [toBlocks_cons64 rmuBlk13 _ (by decide)]
  rw [toBlocks_cons64 rmuBlk14 _ (by decide)]
  rw [toBlocks_cons64 rmuBlk15 _ (by decide)]
  rw [toBlocks_cons64 rmuBlk16 _ (by decide)]
  rw [toBlocks_single rmuBlk17 (by decide)]
  rw [shaRun_cons, (show compressBlock shaH0 rmuBlk0 = stU1 by decide)]
  rw [shaRun_cons, (show compressBlock stU1 rmuBlk1 = stU2 by decide)]
  rw [shaRun_cons, (show compressBlock stU2 rmuBlk2 = stU3 by decide)]
  rw [shaRun_cons, (show compressBlock stU3 rmuBlk3 = stU4 by decide)]
  rw [shaRun_cons, (show compressBlock stU4 rmuBlk4 = stU5 by decide)]
  rw [shaRun_cons, (show compressBlock stU5 rmuBlk5 = stU6 by decide)]
  rw [shaRun_cons, (show compressBlock stU6 rmuBlk6 = stU7 by decide)]
  rw [shaRun_cons, (show compressBlock stU7 rmuBlk7 = stU8 by decide)]
  rw [shaRun_cons, (show compressBlock stU8 rmuBlk8 = stU9 by decide)]
  rw [shaRun_cons, (show compressBlock stU9 rmuBlk9 = stU10 by decide)]
  rw [shaRun_cons, (show compressBlock stU10 rmuBlk10 = stU11 by decide)]
  rw [shaRun_cons, (show compressBlock stU11 rmuBlk11 = stU12 by decide)]
  rw [shaRun_cons, (show compressBlock stU12 rmuBlk12 = stU13 by decide)]
  rw [shaRun_cons, (show compressBlock stU13 rmuBlk13 = stU14 by decide)]
  rw [shaRun_cons, (show compressBlock stU14 rmuBlk14 = stU15 by decide)]
  rw [shaRun_cons, (show compressBlock stU15 rmuBlk15 = stU16 by decide)]
  rw [shaRun_cons, (show compressBlock stU16 rmuBlk16 = stU17 by decide)]
  rw [shaRun_cons, (show compressBlock stU17 rmuBlk17 = stU18 by decide)]
  rw [shaRun_nil]
  decide

/-- The digest of the bytes actually written under utf-8-sig. -/
theorem readme_digest_sig : sha256hex (encodeBytes "utf-8-sig" (generate_readme cfgSig nowCex)) = "33e99e3f31409a43551489b776559c71a1508100e5a95a4e33145c54b68b2059" := by
  simp only [compute_checksum, sha256hex]
  rw [rms_padded]
  rw [toBlocks_cons64 rmsBlk0 _ (by decide)]
  rw [toBlocks_cons64 rmsBlk1 _ (by decide)]
  rw [toBlocks_cons64 rmsBlk2 _ (by decide)]
  rw [toBlocks_cons64 rmsBlk3 _ (by decide)]
  rw [toBlocks_cons64 rmsBlk4 _ (by decide)]
  rw [toBlocks_cons64 rmsBlk5 _ (by decide)]
  rw [toBlocks_cons64 rmsBlk6 _ (by decide)]
  rw [toBlocks_cons64 rmsBlk7 _ (by decide)]
  rw [toBlocks_cons64 rmsBlk8 _ (by decide)]
  rw [toBlocks_cons64 rmsBlk9 _ (by decide)]
  rw [toBlocks_cons64 rmsBlk10 _ (by decide)]
  rw [toBlocks_cons64 rmsBlk11 _ (by decide)]
  rw [toBlocks_cons64 rmsBlk12 _ (by decide)]
  rw [toBlocks_cons64 rmsBlk13 _ (by decide)]
  rw [toBlocks_cons64 rmsBlk14 _ (by decide)]
  rw [toBlocks_cons64 rmsBlk15 _ (by decide)]
  rw [toBlocks_cons64 rmsBlk16 _ (by decide)]
  rw [toBlocks_single rmsBlk17 (by decide)]
  rw [shaRun_cons, (show compressBlock shaH0 rmsBlk0 = stS1 by decide)]
  rw [shaRun_cons, (show compressBlock stS1 rmsBlk1 = stS2 by decide)]
  rw [shaRun_cons, (show compressBlock stS2 rmsBlk2 = stS3 by decide)]
  rw [shaRun_cons, (show compressBlock stS3 rmsBlk3 = stS4 by decide)]
  rw [shaRun_cons, (show compressBlock stS4 rmsBlk4 = stS5 by decide)]
  rw [shaRun_cons, (show compressBlock stS5 rmsBlk5 = stS6 by decide)]
  rw [shaRun_cons, (show compressBlock stS6 rmsBlk6 = stS7 by decide)]
  rw [shaRun_cons, (show compressBlock stS7 rmsBlk7 = stS8 by decide)]
  rw [shaRun_cons, (show compressBlock stS8 rmsBlk8 = stS9 by decide)]
  rw [shaRun_cons, (show compressBlock stS9 rmsBlk9 = stS10 by decide)]
  rw [shaRun_cons, (show compressBlock stS10 rmsBlk10 = stS11 by decide)]
  rw [shaRun_cons, (show compressBlock stS11 rmsBlk11 = stS12 by decide)]
  rw [shaRun_cons, (show compressBlock stS12 rmsBlk12 = stS13 by decide)]
  rw [shaRun_cons, (show compressBlock stS13 rmsBlk13 = stS14 by decide)]
  rw [shaRun_cons, (show compressBlock stS14 rmsBlk14 = stS15 by decide)]
  rw [shaRun_cons, (show compressBlock stS15 rmsBlk15 = stS16 by decide)]
  rw [shaRun_cons, (show compressBlock stS16 rmsBlk16 = stS17 by decide)]
  rw [shaRun_cons, (show compressBlock stS17 rmsBlk17 = stS18 by decide)]
  rw [shaRun_nil]
  decide

def abcPadded : List Nat := [97, 98, 99, 128, 0, 0, 0, 0, 0, 0, 0, 0, 0, 0, 0, 0, 0, 0, 0, 0, 0, 0, 0, 0, 0, 0, 0, 0, 0, 0, 0, 0, 0, 0, 0, 0, 0, 0, 0, 0, 0, 0, 0, 0, 0, 0, 0, 0, 0, 0, 0, 0, 0, 0, 0, 0, 0, 0, 0, 0, 0, 0, 0, 24]
def abcState : Hash8 := ⟨3128432319, 2399260650, 1094795486, 1571693091, 2953011619, 2518121116, 3021012833, 4060091821⟩

/-- Reference check of the SHA-256 embedding against the standard
test vector for "abc". -/
theorem sha256hex_abc : sha256hex [97, 98, 99] = "ba7816bf8f01cfea414140de5dae2223b00361a396177a9cb410ff61f20015ad" := by
  simp only [sha256hex]
  rw [(show pad [97, 98, 99] = abcPadded by decide)]
  rw [toBlocks_single abcPadded (by decide)]
  rw [shaRun_cons, (show compressBlock shaH0 abcPadded = abcState by decide), shaRun_nil]
  decide

/-! ### Validation outcomes of the generated artifacts -/

/-- The markup byte length is at least 19301 under either supported
codec. -/
theorem astro_len_ge (cfg : BuildConfig)
    (he : cfg.encoding = "utf-8" ∨ cfg.encoding = "utf-8-sig") :
    19301 ≤ (encodeBytes cfg.encoding astroText).length := by
  have h1 : (encodeBytes cfg.encoding astroText).length = 19301 ∨
      (encodeBytes cfg.encoding astroText).length = 19304 := by
    rcases he with h | h
    · left
      rw [h, encodeBytes_utf8]
      exact astro_utf8_len
    · right
      rw [h, encodeBytes_sig]
      simp [astro_utf8_len]
  rcases h1 with h1 | h1 <;> omega

/-- The stylesheet byte length is at least 3523 under either supported
codec. -/
theorem css_len_ge (cfg : BuildConfig)
    (he : cfg.encoding = "utf-8" ∨ cfg.encoding = "utf-8-sig") :
    3523 ≤ (encodeBytes cfg.encoding cssText).length := by
  have h1 : (encodeBytes cfg.encoding cssText).length = 3523 ∨
      (encodeBytes cfg.encoding cssText).length = 3526 := by
    rcases he with h | h
    · left
      rw [h, encodeBytes_utf8]
      exact css_utf8_len
    · right
      rw [h, encodeBytes_sig]
      simp [css_utf8_len]
  rcases h1 with h1 | h1 <;> omega

/-- Markup validation passes for every configuration with a supported
codec whose threshold does not exceed the generated size. -/
theorem vrOk_astro (cfg : BuildConfig)
    (he : cfg.encoding = "utf-8" ∨ cfg.encoding = "utf-8-sig")
    (hm : cfg.min_astro_size ≤ 19301) :
    vrOk (validate_astro (generate_astro_content cfg) cfg) = true := by
  have hsup : supportedEncoding cfg.encoding = true := by
    rcases he with h | h <;> simp [supportedEncoding, h]
  have hlen := astro_len_ge cfg he
  have hnlt : ¬ ((encodeBytes cfg.encoding astroText).length < cfg.min_astro_size) := by omega
  show vrOk (validate_astro astroText cfg) = true
  unfold validate_astro
  rw [if_pos hsup]
  dsimp only
  rw [if_neg hnlt]
  simp [vrOk, presenceChecks_fst, astro_has_main, astro_has_main_close, astro_has_baselayout,
    astro_has_hero, astro_has_auditform, astro_has_labelq]

/-- Stylesheet validation passes for every configuration with a
supported codec whose threshold does not exceed the generated size. -/
theorem vrOk_css (cfg : BuildConfig)
    (he : cfg.encoding = "utf-8" ∨ cfg.encoding = "utf-8-sig")
    (hm : cfg.min_css_size ≤ 3523) :
    vrOk (validate_css generate_css cfg) = true := by
  have hsup : supportedEncoding cfg.encoding = true := by
    rcases he with h | h <;> simp [supportedEncoding, h]
  have hlen := css_len_ge cfg he
  have hnlt : ¬ ((encodeBytes cfg.encoding cssText).length < cfg.min_css_size) := by omega
  show vrOk (validate_css cssText cfg) = true
  unfold validate_css
  rw [if_pos hsup]
  dsimp only
  rw [if_neg hnlt]
  simp [vrOk, presenceChecks_fst, css_has_summary, css_has_risk, css_has_faq, css_has_auditform]

theorem vrOk_astro_default :
    vrOk (validate_astro (generate_astro_content defaultConfig) defaultConfig) = true :=
  vrOk_astro defaultConfig (Or.inl rfl) (by decide)

theorem vrOk_css_default : vrOk (validate_css generate_css defaultConfig) = true :=
  vrOk_css defaultConfig (Or.inl rfl) (by decide)

theorem vrOk_astro_sig :
    vrOk (validate_astro (generate_astro_content cfgSig) cfgSig) = true :=
  vrOk_astro cfgSig (Or.inr rfl) (by decide)

theorem vrOk_css_sig : vrOk (validate_css generate_css cfgSig) = true :=
  vrOk_css cfgSig (Or.inr rfl) (by decide)

theorem vrOk_astro_badschema :
    vrOk (validate_astro (generate_astro_content cfgBadSchema) cfgBadSchema) = true :=
  vrOk_astro cfgBadSchema (Or.inl rfl) (by decide)

theorem vrOk_css_badschema : vrOk (validate_css generate_css cfgBadSchema) = true :=
  vrOk_css cfgBadSchema (Or.inl rfl) (by decide)

theorem schema_pass_default :
    (validate_schema (generate_schema defaultConfig) defaultConfig).passed = true := by decide

theorem schema_pass_sig :
    (validate_schema (generate_schema cfgSig) cfgSig).passed = true := by decide

theorem schema_fail_badschema :
    (validate_schema (generate_schema cfgBadSchema) cfgBadSchema).passed = false := by decide

/-! ### Further structural helpers for the claims -/

/-- Whenever the write log is non-empty, all three validations had
returned passing reports. -/
theorem build_writes_inv (od : String) (cfg : BuildConfig) (nowM nowR host : String)
    (dry : Bool) (fs : String → Bool) (ws : List WriteOp)
    (r : Except BuildErr BuildManifest)
    (h : build_package od cfg nowM nowR host dry fs = (ws, r)) (hne : ws ≠ []) :
    ∃ av cv, validate_astro (generate_astro_content cfg) cfg = .ok av ∧
      validate_css generate_css cfg = .ok cv ∧
      av.passed = true ∧ (validate_schema (generate_schema cfg) cfg).passed = true ∧
      cv.passed = true := by
  unfold build_package at h
  split at h
  · simp only [Prod.mk.injEq] at h
    exact absurd h.1.symm hne
  rename_i av hA
  split at h
  · simp only [Prod.mk.injEq] at h
    exact absurd h.1.symm hne
  rename_i cv hC
  dsimp only at h
  by_cases hp : (av.passed && (validate_schema (generate_schema cfg) cfg).passed && cv.passed) = true
  · simp only [Bool.and_eq_true] at hp
    exact ⟨av, cv, hA, hC, hp.1.1, hp.1.2, hp.2⟩
  · rw [if_neg hp] at h
    simp only [Prod.mk.injEq] at h
    exact absurd h.1.symm hne

/-- Every recorded artifact of a successful full run has its content
in the write log and its checksum equal to the SHA-256 digest of the
UTF-8 bytes of that content. -/
theorem build_checksums_utf8 (od : String) (cfg : BuildConfig) (nowM nowR host : String)
    (fs : String → Bool) (ws : List WriteOp) (m : BuildManifest)
    (h : build_package od cfg nowM nowR host false fs = (ws, .ok m)) :
    ∀ name path, (name, path) ∈ m.artifacts →
      ∃ content, WriteOp.mk path content ∈ ws ∧
        lookupStr m.checksums name = some (sha256hex (utf8Bytes content)) := by
  obtain ⟨av, cv, hA, hC, hpa, hps, hpc, hws, hm2⟩ := build_ok_inv od cfg nowM nowR host fs ws m h
  subst hws
  subst hm2
  intro name path hmem
  simp only [fullManifest, List.mem_cons, List.not_mem_nil, or_false, Prod.mk.injEq] at hmem
  rcases hmem with ⟨hn, hp⟩ | ⟨hn, hp⟩ | ⟨hn, hp⟩ | ⟨hn, hp⟩ <;> subst hn <;> subst hp
  · exact ⟨generate_astro_content cfg, by simp [buildWrites],
      by simp [fullManifest, lookupStr, compute_checksum]⟩
  · exact ⟨schema_str cfg, by simp [buildWrites],
      by simp [fullManifest, lookupStr, compute_checksum]⟩
  · exact ⟨generate_css, by simp [buildWrites],
      by simp [fullManifest, lookupStr, compute_checksum]⟩
  · exact ⟨generate_readme cfg nowR, by simp [buildWrites],
      by simp [fullManifest, lookupStr, compute_checksum]⟩

/-- The build at the configuration whose required-type set contains
"Organization" aborts with the distinguished validation error. -/
theorem build_badSchema :
    build_package "out" cfgBadSchema "tm" "tr" "host" false noFail =
      ([], .error .validationError) := by
  obtain ⟨ra, hA, hpa⟩ := vrOk_exists vrOk_astro_badschema
  obtain ⟨rc, hC, hpc⟩ := vrOk_exists vrOk_css_badschema
  exact build_package_fail "out" cfgBadSchema "tm" "tr" "host" false noFail ra rc hA hC
    (Or.inr (Or.inl schema_fail_badschema))

/-- The default-configuration graph with its entries reversed, under
the same context. -/
def schemaRev : List (String × JVal) :=
  [("@context", .str "https://schema.org"),
   ("@graph", .arr (graphItems (generate_schema defaultConfig)).reverse)]

/-! ### The claims -/

/-- C1: if any individual validation check on the markup, schema or
stylesheet fails, `build_package` raises the distinguished
ValidationError and writes nothing; and any write in the log implies
that all three validation reports passed. -/
theorem c1_validation_gate (od : String) (cfg : BuildConfig) (nowM nowR host : String)
    (dry : Bool) (fs : String → Bool) :
    (∀ ra rc, validate_astro (generate_astro_content cfg) cfg = .ok ra →
      validate_css generate_css cfg = .ok rc →
      (ra.passed && (validate_schema (generate_schema cfg) cfg).passed && rc.passed) = false →
      build_package od cfg nowM nowR host dry fs = ([], .error .validationError)) ∧
    (∀ w, w ∈ (build_package od cfg nowM nowR host dry fs).1 →
      ∃ ra rc, validate_astro (generate_astro_content cfg) cfg = .ok ra ∧
        validate_css generate_css cfg = .ok rc ∧
        ra.passed = true ∧ (validate_schema (generate_schema cfg) cfg).passed = true ∧
        rc.passed = true) := by
  constructor
  · intro ra rc hA hC hfail
    apply build_package_fail od cfg nowM nowR host dry fs ra rc hA hC
    cases hra : ra.passed <;>
      cases hs : (validate_schema (generate_schema cfg) cfg).passed <;>
      cases hrc : rc.passed <;> simp_all
  · intro w hw
    exact build_writes_inv od cfg nowM nowR host dry fs _ _ rfl (List.ne_nil_of_mem hw)

/-- Witness for C1: at the configuration whose required-type set the
generated schema misses, the build ends in the validation error with
an empty write log. -/
theorem c1_witness :
    build_package "out" cfgBadSchema "tm" "tr" "host" false noFail =
      ([], .error .validationError) := by
  obtain ⟨ra, hA, hpa⟩ := vrOk_exists vrOk_astro_badschema
  obtain ⟨rc, hC, hpc⟩ := vrOk_exists vrOk_css_badschema
  exact (c1_validation_gate "out" cfgBadSchema "tm" "tr" "host" false noFail).1 ra rc hA hC
    (by simp [schema_fail_badschema])

/-- C2 (counterexample): under the valid codec name "utf-8-sig" the
build succeeds, the README write carries the README content, yet the
recorded checksum differs from the SHA-256 digest of the bytes written
to the README file (its content encoded under the configured codec). -/
theorem c2_counterexample :
    ∃ ws m, build_package "out" cfgSig "tm" nowCex "host" false noFail = (ws, .ok m) ∧
      ("readme", readmePath "out") ∈ m.artifacts ∧
      WriteOp.mk (readmePath "out") (generate_readme cfgSig nowCex) ∈ ws ∧
      lookupStr m.checksums "readme" ≠
        some (sha256hex (encodeBytes cfgSig.encoding (generate_readme cfgSig nowCex))) := by
  obtain ⟨ra, hA, hpa⟩ := vrOk_exists vrOk_astro_sig
  obtain ⟨rc, hC, hpc⟩ := vrOk_exists vrOk_css_sig
  have hb := build_package_ok "out" cfgSig "tm" nowCex "host" noFail ra rc hA hC hpa
    schema_pass_sig hpc rfl rfl rfl rfl rfl
  refine ⟨_, _, hb, ?_, ?_, ?_⟩
  · simp [fullManifest]
  · simp [buildWrites]
  · have hl : lookupStr (fullManifest "out" cfgSig "tm" nowCex "host" ra
        (validate_schema (generate_schema cfgSig) cfgSig) rc).checksums "readme" =
        some (compute_checksum (generate_readme cfgSig nowCex)) := by
      simp [fullManifest, lookupStr]
    rw [hl, readme_checksum_utf8]
    rw [show cfgSig.encoding = "utf-8-sig" from rfl, readme_digest_sig]
    decide

/-- C2 (amended): in a successful non-dry-run build whose configured
codec is UTF-8 (the default), every recorded checksum equals the
SHA-256 hex digest of exactly the bytes written to that artifact's
file. -/
theorem c2_checksum_roundtrip_utf8 (od : String) (cfg : BuildConfig)
    (nowM nowR host : String) (fs : String → Bool) (ws : List WriteOp) (m : BuildManifest)
    (henc : cfg.encoding = "utf-8")
    (h : build_package od cfg nowM nowR host false fs = (ws, .ok m)) :
    ∀ name path, (name, path) ∈ m.artifacts →
      ∃ content, WriteOp.mk path content ∈ ws ∧
        lookupStr m.checksums name = some (sha256hex (encodeBytes cfg.encoding content)) := by
  intro name path hmem
  obtain ⟨content, hw, hlk⟩ := build_checksums_utf8 od cfg nowM nowR host fs ws m h name path hmem
  refine ⟨content, hw, ?_⟩
  rw [henc, encodeBytes_utf8]
  exact hlk

/-- Witness for the amended C2 at the default configuration. -/
theorem c2_witness :
    ∃ ws m, build_package "out" defaultConfig "tm" nowCex "host" false noFail = (ws, .ok m) ∧
      ∀ name path, (name, path) ∈ m.artifacts →
        ∃ content, WriteOp.mk path content ∈ ws ∧
          lookupStr m.checksums name =
            some (sha256hex (encodeBytes defaultConfig.encoding content)) := by
  obtain ⟨ra, hA, hpa⟩ := vrOk_exists vrOk_astro_default
  obtain ⟨rc, hC, hpc⟩ := vrOk_exists vrOk_css_default
  have hb := build_package_ok "out" defaultConfig "tm" nowCex "host" noFail ra rc hA hC hpa
    schema_pass_default hpc rfl rfl rfl rfl rfl
  exact ⟨_, _, hb,
    c2_checksum_roundtrip_utf8 "out" defaultConfig "tm" nowCex "host" noFail _ _ rfl hb⟩

/-- C3: a dry run performs no write; when it succeeds its manifest has
empty path and checksum maps, and its validation verdict is the one a
full run with the same configuration produces. -/
theorem c3_dry_run (od : String) (cfg : BuildConfig) (nowM nowR host : String)
    (fs : String → Bool) :
    (build_package od cfg nowM nowR host true fs).1 = [] ∧
    (∀ ws m, build_package od cfg nowM nowR host true fs = (ws, .ok m) →
      m.artifacts = [] ∧ m.checksums = [] ∧
      ∀ od2 nowM2 nowR2 host2 fs2 ws2 m2,
        build_package od2 cfg nowM2 nowR2 host2 false fs2 = (ws2, .ok m2) →
        m2.validation = m.validation) := by
  refine ⟨build_dry_writes_nil od cfg nowM nowR host fs, ?_⟩
  intro ws m h
  obtain ⟨av, cv, hA, hC, hpa, hps, hpc, hws, hm2⟩ := build_dry_inv od cfg nowM nowR host fs ws m h
  subst hm2
  refine ⟨rfl, rfl, ?_⟩
  intro od2 nowM2 nowR2 host2 fs2 ws2 m2 h2
  obtain ⟨av2, cv2, hA2, hC2, _, _, _, _, hm22⟩ :=
    build_ok_inv od2 cfg nowM2 nowR2 host2 fs2 ws2 m2 h2
  subst hm22
  have e1 : av2 = av := Except.ok.inj (hA2.symm.trans hA)
  have e2 : cv2 = cv := Except.ok.inj (hC2.symm.trans hC)
  simp [fullManifest, e1, e2]

/-- Witness for C3 at the default configuration: the dry run returns a
manifest with empty path and checksum maps. -/
theorem c3_witness :
    ∃ m, build_package "out" defaultConfig "tm" "tr" "host" true noFail = ([], .ok m) ∧
      m.artifacts = [] ∧ m.checksums = [] := by
  obtain ⟨ra, hA, hpa⟩ := vrOk_exists vrOk_astro_default
  obtain ⟨rc, hC, hpc⟩ := vrOk_exists vrOk_css_default
  have hb := build_package_dry_ok "out" defaultConfig "tm" "tr" "host" noFail ra rc hA hC hpa
    schema_pass_default hpc
  refine ⟨_, hb, ?_, ?_⟩
  · exact ((c3_dry_run "out" defaultConfig "tm" "tr" "host" noFail).2 _ _ hb).1
  · exact ((c3_dry_run "out" defaultConfig "tm" "tr" "host" noFail).2 _ _ hb).2.1

/-- C4: schema validation passes exactly when the "@context" field is
the literal "https://schema.org" and every required type occurs among
the graph items' "@type" values; the test is a set-membership test,
indifferent to the order and duplication of graph entries. -/
theorem c4_validate_schema_iff :
    (∀ (schema : List (String × JVal)) (cfg : BuildConfig),
      ((validate_schema schema cfg).passed = true ↔
        (lookupKV schema "@context" = some (.str "https://schema.org") ∧
         ∀ t ∈ cfg.required_schema_types, hasType (graphItems schema) t = true))) ∧
    (∀ (s1 s2 : List (String × JVal)) (cfg : BuildConfig),
      lookupKV s1 "@context" = lookupKV s2 "@context" →
      (∀ o : Option JVal,
        o ∈ (graphItems s1).map (fun item => jget item "@type") ↔
        o ∈ (graphItems s2).map (fun item => jget item "@type")) →
      (validate_schema s1 cfg).passed = (validate_schema s2 cfg).passed) := by
  constructor
  · intro schema cfg
    rw [validate_schema_passed]
    constructor
    · intro h
      simp only [Bool.and_eq_true, List.all_eq_true] at h
      refine ⟨?_, h.2⟩
      rcases hctx : lookupKV schema "@context" with _ | v
      · rw [hctx] at h
        simp at h
      · cases v with
        | str s =>
          rw [hctx] at h
          have hs : s = "https://schema.org" := by simpa using h.1
          rw [hs]
        | bool b =>
          rw [hctx] at h
          simp at h
        | arr xs =>
          rw [hctx] at h
          simp at h
        | obj kvs =>
          rw [hctx] at h
          simp at h
    · intro hc
      rw [hc.1]
      simp only [Bool.and_eq_true, List.all_eq_true]
      exact ⟨by simp, hc.2⟩
  · intro s1 s2 cfg hctx hmem
    rw [validate_schema_passed, validate_schema_passed, hctx]
    have hf : hasType (graphItems s1) = hasType (graphItems s2) :=
      funext (hasType_of_mem_iff _ _ hmem)
    rw [hf]

/-- Witness for C4: reversing the graph entries of the generated
schema leaves the validation verdict unchanged. -/
theorem c4_witness :
    (validate_schema (generate_schema defaultConfig) defaultConfig).passed =
      (validate_schema schemaRev defaultConfig).passed := by
  apply c4_validate_schema_iff.2
  · rfl
  · intro o
    rw [show graphItems schemaRev = (graphItems (generate_schema defaultConfig)).reverse from rfl]
    rw [List.map_reverse]
    exact (List.mem_reverse).symm

/-- C5: the first node of the generated structured-data graph has both
its "@id" and its "url" equal to the configured domain, a slash, and
the page slug; at domain "https://example.com" and slug "audit" the
"@id" is exactly "https://example.com/audit". -/
theorem c5_schema_first_node_id :
    (∀ cfg : BuildConfig,
      ((graphItems (generate_schema cfg)).head?.bind (fun item => jget item "@id")) =
        some (.str (cfg.domain ++ "/" ++ cfg.page_slug)) ∧
      ((graphItems (generate_schema cfg)).head?.bind (fun item => jget item "url")) =
        some (.str (cfg.domain ++ "/" ++ cfg.page_slug))) ∧
    ((graphItems (generate_schema cfgExample)).head?.bind (fun item => jget item "@id")) =
      some (.str "https://example.com/audit") := by
  refine ⟨fun cfg => ⟨rfl, rfl⟩, rfl⟩

/-- C6: the exit code is always 0, 1 or 2; it is 1 exactly when the
build itself raised the distinguished validation error (in which case
nothing was written); and it is 0 exactly on a clean successful run. -/
theorem c6_exit_codes (backupRaises zipRaises : Bool) (od : String) (cfg : BuildConfig)
    (nowM nowR host : String) (dry : Bool) (fs : String → Bool) :
    (main_exit_code backupRaises (build_package od cfg nowM nowR host dry fs) zipRaises = 0 ∨
     main_exit_code backupRaises (build_package od cfg nowM nowR host dry fs) zipRaises = 1 ∨
     main_exit_code backupRaises (build_package od cfg nowM nowR host dry fs) zipRaises = 2) ∧
    (main_exit_code backupRaises (build_package od cfg nowM nowR host dry fs) zipRaises = 1 ↔
      (backupRaises = false ∧
       (build_package od cfg nowM nowR host dry fs).2 = .error .validationError)) ∧
    ((build_package od cfg nowM nowR host dry fs).2 = .error .validationError →
      (build_package od cfg nowM nowR host dry fs).1 = []) ∧
    (main_exit_code backupRaises (build_package od cfg nowM nowR host dry fs) zipRaises = 0 ↔
      (backupRaises = false ∧ zipRaises = false ∧
       ∃ m, (build_package od cfg nowM nowR host dry fs).2 = .ok m)) := by
  have hnil : (build_package od cfg nowM nowR host dry fs).2 = .error .validationError →
      (build_package od cfg nowM nowR host dry fs).1 = [] := by
    intro h2
    have hb : build_package od cfg nowM nowR host dry fs =
        ((build_package od cfg nowM nowR host dry fs).1, .error .validationError) := by
      rw [← h2]
    exact build_error_inv od cfg nowM nowR host dry fs _ _ hb rfl
  refine ⟨?_, ?_, hnil, ?_⟩
  · rcases hm : (build_package od cfg nowM nowR host dry fs).2 with e | m
    · cases e <;> cases backupRaises <;> cases zipRaises <;> simp [main_exit_code, hm]
    · cases backupRaises <;> cases zipRaises <;> simp [main_exit_code, hm]
  · rcases hm : (build_package od cfg nowM nowR host dry fs).2 with e | m
    · cases e <;> cases backupRaises <;> cases zipRaises <;> simp [main_exit_code, hm]
    · cases backupRaises <;> cases zipRaises <;> simp [main_exit_code, hm]
  · rcases hm : (build_package od cfg nowM nowR host dry fs).2 with e | m
    · cases e <;> cases backupRaises <;> cases zipRaises <;> simp [main_exit_code, hm]
    · cases backupRaises <;> cases zipRaises <;> simp [main_exit_code, hm]

/-- Witness for C6: a build aborted by validation yields exit code 1. -/
theorem c6_witness :
    main_exit_code false (build_package "out" cfgBadSchema "tm" "tr" "host" false noFail)
      false = 1 := by
  have h2 : (build_package "out" cfgBadSchema "tm" "tr" "host" false noFail).2 =
      .error .validationError := by
    rw [build_badSchema]
  exact (c6_exit_codes false false "out" cfgBadSchema "tm" "tr" "host" false noFail).2.1.mpr
    ⟨rfl, h2⟩

/-- C7 (counterexample): at the configuration whose markup threshold is
1000000 bytes, the generated markup (19301 bytes) is below the
configured minimum, refuting the size-floor claim for all valid
configurations. -/
theorem c7_counterexample :
    ¬ (cfgBigMin.min_astro_size ≤
        (encodeBytes cfgBigMin.encoding (generate_astro_content cfgBigMin)).length) := by
  intro h
  have e1 : encodeBytes cfgBigMin.encoding (generate_astro_content cfgBigMin) =
      utf8Bytes astroText := rfl
  rw [e1, astro_utf8_len] at h
  have h2 : (1000000 : Nat) ≤ 19301 := h
  omega

/-- C7 (amended): for every configuration with a supported codec whose
thresholds do not exceed the defaults (5000 and 500 bytes), the
generated markup and stylesheet meet the configured minimum sizes. -/
theorem c7_size_floor (cfg : BuildConfig)
    (hs : supportedEncoding cfg.encoding = true)
    (ha : cfg.min_astro_size ≤ 5000) (hc : cfg.min_css_size ≤ 500) :
    cfg.min_astro_size ≤ (encodeBytes cfg.encoding (generate_astro_content cfg)).length ∧
    cfg.min_css_size ≤ (encodeBytes cfg.encoding generate_css).length := by
  have he : cfg.encoding = "utf-8" ∨ cfg.encoding = "utf-8-sig" := by
    unfold supportedEncoding at hs
    simp only [Bool.or_eq_true, beq_iff_eq] at hs
    exact hs
  have g1 := astro_len_ge cfg he
  have g2 := css_len_ge cfg he
  exact ⟨by show cfg.min_astro_size ≤ (encodeBytes cfg.encoding astroText).length; omega,
    by show cfg.min_css_size ≤ (encodeBytes cfg.encoding cssText).length; omega⟩

/-- Witness for the amended C7 at the default configuration. -/
theorem c7_witness :
    defaultConfig.min_astro_size ≤
      (encodeBytes defaultConfig.encoding (generate_astro_content defaultConfig)).length ∧
    defaultConfig.min_css_size ≤ (encodeBytes defaultConfig.encoding generate_css).length :=
  c7_size_floor defaultConfig (by decide) (by decide) (by decide)

/-- C8: the generated markup does not depend on the domain or page
slug: two configurations equal in every other field generate identical
markup. -/
theorem c8_markup_independent (c1 c2 : BuildConfig)
    (_h1 : c1.version = c2.version) (_h2 : c1.promptcore_ver = c2.promptcore_ver)
    (_h3 : c1.encoding = c2.encoding) (_h4 : c1.zip_compression = c2.zip_compression)
    (_h5 : c1.min_astro_size = c2.min_astro_size) (_h6 : c1.min_css_size = c2.min_css_size)
    (_h7 : c1.required_schema_types = c2.required_schema_types) :
    generate_astro_content c1 = generate_astro_content c2 := rfl

/-- Witness for C8: the default configuration and one differing only
in domain and page slug generate identical markup. -/
theorem c8_witness : generate_astro_content defaultConfig = generate_astro_content cfgAltLinks :=
  c8_markup_independent defaultConfig cfgAltLinks rfl rfl rfl rfl rfl rfl rfl

/-- C9: every checksum a successful build records is the SHA-256
digest of the UTF-8 bytes of the artifact's content, whatever codec
the configuration names; under the supported non-UTF-8 codec
"utf-8-sig" the written bytes never coincide with the hashed bytes. -/
theorem c9_checksum_uses_utf8 (od : String) (cfg : BuildConfig) (nowM nowR host : String)
    (fs : String → Bool) (ws : List WriteOp) (m : BuildManifest)
    (h : build_package od cfg nowM nowR host false fs = (ws, .ok m)) :
    (∀ name path, (name, path) ∈ m.artifacts →
      ∃ content, WriteOp.mk path content ∈ ws ∧
        lookupStr m.checksums name = some (sha256hex (utf8Bytes content))) ∧
    (∀ s : String, cfg.encoding = "utf-8-sig" → encodeBytes cfg.encoding s ≠ utf8Bytes s) := by
  refine ⟨build_checksums_utf8 od cfg nowM nowR host fs ws m h, ?_⟩
  intro s hsig
  rw [hsig]
  exact encodeBytes_sig_ne_utf8 s

/-- Witness for C9 at the default configuration. -/
theorem c9_witness :
    ∃ ws m, build_package "out" defaultConfig "tm" nowCex "host" false noFail = (ws, .ok m) ∧
      ((∀ name path, (name, path) ∈ m.artifacts →
        ∃ content, WriteOp.mk path content ∈ ws ∧
          lookupStr m.checksums name = some (sha256hex (utf8Bytes content))) ∧
       (∀ s : String, defaultConfig.encoding = "utf-8-sig" →
         encodeBytes defaultConfig.encoding s ≠ utf8Bytes s)) := by
  obtain ⟨ra, hA, hpa⟩ := vrOk_exists vrOk_astro_default
  obtain ⟨rc, hC, hpc⟩ := vrOk_exists vrOk_css_default
  have hb := build_package_ok "out" defaultConfig "tm" nowCex "host" noFail ra rc hA hC hpa
    schema_pass_default hpc rfl rfl rfl rfl rfl
  exact ⟨_, _, hb,
    c9_checksum_uses_utf8 "out" defaultConfig "tm" nowCex "host" noFail _ _ hb⟩

/-- C10: the manifest of every successful non-dry-run build has
exactly the keys "astro", "schema", "css", "readme" in its path and
checksum maps and exactly "astro", "schema", "css" in its validation
map. -/
theorem c10_manifest_keys (od : String) (cfg : BuildConfig) (nowM nowR host : String)
    (fs : String → Bool) (ws : List WriteOp) (m : BuildManifest)
    (h : build_package od cfg nowM nowR host false fs = (ws, .ok m)) :
    m.artifacts.map Prod.fst = ["astro", "schema", "css", "readme"] ∧
    m.checksums.map Prod.fst = ["astro", "schema", "css", "readme"] ∧
    m.validation.map Prod.fst = ["astro", "schema", "css"] := by
  obtain ⟨av, cv, hA, hC, hpa, hps, hpc, hws, hm2⟩ := build_ok_inv od cfg nowM nowR host fs ws m h
  subst hm2
  exact ⟨rfl, rfl, rfl⟩

/-- Witness for C10 at the default configuration. -/
theorem c10_witness :
    ∃ ws m, build_package "out" defaultConfig "tm" nowCex "host" false noFail = (ws, .ok m) ∧
      m.artifacts.map Prod.fst = ["astro", "schema", "css", "readme"] ∧
      m.checksums.map Prod.fst = ["astro", "schema", "css", "readme"] ∧
      m.validation.map Prod.fst = ["astro", "schema", "css"] := by
  obtain ⟨ra, hA, hpa⟩ := vrOk_exists vrOk_astro_default
  obtain ⟨rc, hC, hpc⟩ := vrOk_exists vrOk_css_default
  have hb := build_package_ok "out" defaultConfig "tm" nowCex "host" noFail ra rc hA hC hpa
    schema_pass_default hpc rfl rfl rfl rfl rfl
  exact ⟨_, _, hb, c10_manifest_keys "out" defaultConfig "tm" nowCex "host" noFail _ _ hb⟩
